import Mathlib

set_option maxRecDepth 8000

/-!
Verification of the bootsector partition-table decoders against their
specification.  The Rust sources are shallowly embedded: byte buffers become
`List Nat` (each element a byte value `< 256`), machine integers become `Nat`
with explicit bounds or `% 2 ^ 64` where wrapping matters, and fallible code
returns `Except`/sum types.  Namespaces mirror the crate's modules:
`mbr` for src/mbr.rs, `gpt` for src/gpt.rs, `bootsector` for src/lib.rs,
`rangereader` for src/rangereader.rs.
-/

/-- Little-endian 16-bit read, embedding `le::read_u16` (src/le.rs) and
`byteorder::LittleEndian::read_u16`.  Out-of-range indices default to 0; all
uses below are within the buffers the Rust code indexes. -/
def readU16 (l : List Nat) (off : Nat) : Nat :=
  l.getD off 0 + 2 ^ 8 * l.getD (off + 1) 0

/-- Little-endian 32-bit read, embedding `le::read_u32` / `LittleEndian::read_u32`. -/
def readU32 (l : List Nat) (off : Nat) : Nat :=
  readU16 l off + 2 ^ 16 * readU16 l (off + 2)

/-- Little-endian 64-bit read, embedding `le::read_u64` / `LittleEndian::read_u64`. -/
def readU64 (l : List Nat) (off : Nat) : Nat :=
  readU32 l off + 2 ^ 32 * readU32 l (off + 4)

/-- Embedding of `all_zero` (src/gpt.rs and src/lib.rs): every byte is zero. -/
def allZero (val : List Nat) : Bool :=
  val.all (fun x => 0 == x)

/-- One bit-round of the reflected CRC-32 (polynomial 0xEDB88320).  Models the
`crc` crate's `CRC_32_ISO_HDLC` and `crc::crc32::checksum_ieee`, the external
checksum dependency of src/gpt.rs and src/lib.rs (spec: "CRC-32 ISO-HDLC
variant, polynomial 0x04C11DB7 reflected form as used by gzip/PKZIP"). -/
def crcRound (c : Nat) : Nat :=
  if c % 2 = 1 then (c / 2) ^^^ 0xEDB88320 else c / 2

/-- Per-byte step of CRC-32: xor the byte into the state, then 8 bit-rounds. -/
def crcStep (crc b : Nat) : Nat := crcRound^[8] (crc ^^^ b)

/-- CRC-32 (ISO-HDLC / IEEE) of a byte sequence: initial state `0xFFFFFFFF`,
final xor `0xFFFFFFFF`.  Agrees with zlib's `crc32` on byte lists. -/
def crc32 (data : List Nat) : Nat :=
  (data.foldl crcStep 0xFFFFFFFF) ^^^ 0xFFFFFFFF

namespace mbr

/-- An entry in the partition table (src/mbr.rs `Partition`). -/
structure Partition where
  id : Nat
  bootable : Bool
  type_code : Nat
  first_byte : Nat
  len : Nat
deriving DecidableEq, Repr

/-- Error of `parse_partition_table`.  src/mbr.rs reports it as an
`io::Error` of kind `InvalidData` with message
"invalid status code in partition {entry_id}: {status:x}"; the embedding
keeps the two formatted values. -/
inductive MbrError where
  | invalidStatusCode (entry_id : Nat) (status : Nat)
deriving DecidableEq, Repr

/-- Loop body of `parse_partition_table` (src/mbr.rs lines 39-76): process the
remaining `entry_id`s in order, appending parsed partitions to `acc`.
For each entry at offset `446 + entry_id * 16`: byte 0 is the status
(0x00 → not bootable, 0x80 → bootable, anything else is an error), byte 4 the
type code (0 means the slot is skipped), bytes 8..12 the first LBA and bytes
12..16 the sector count (u32 LE).  As in the source, `first_byte` is
`first_lba * sector_size` and `len` is `first_byte + sector_count *
sector_size`.  The u64 products stay below `2 ^ 48` (u32 value times u16
value), so plain `Nat` arithmetic coincides with Rust's u64 arithmetic. -/
def parseEntries (sector : List Nat) (sector_size : Nat) :
    List Nat → List Partition → Except MbrError (List Partition)
  | [], acc => .ok acc
  | entry_id :: rest, acc =>
    let partition := (sector.drop (446 + entry_id * 16)).take 16
    let status := partition.getD 0 0
    if status = 0x00 ∨ status = 0x80 then
      let bootable : Bool := status == 0x80
      let type_code := partition.getD 4 0
      if type_code = 0 then
        parseEntries sector sector_size rest acc
      else
        let first_byte := readU32 partition 8 * sector_size
        let len := first_byte + readU32 partition 12 * sector_size
        parseEntries sector sector_size rest
          (acc ++ [{ id := entry_id, bootable := bootable, type_code := type_code,
                     first_byte := first_byte, len := len }])
    else
      .error (.invalidStatusCode entry_id status)

/-- Embedding of `parse_partition_table` (src/mbr.rs lines 36-79): read a
DOS/MBR partition table from a 512-byte boot sector with the given disc
sector size, iterating `entry_id` over `0..4`.  (Rust would panic on a
sector shorter than 510 bytes; the theorems below only use 512-byte
sectors.) -/
def parse_partition_table (sector : List Nat) (sector_size : Nat) :
    Except MbrError (List Partition) :=
  parseEntries sector sector_size (List.range 4) []

end mbr

namespace mbr

/-- Status byte of entry slot `j`: byte 0 of the 16-byte entry at offset
`446 + j * 16` of the boot sector. -/
def statusByte (sector : List Nat) (j : Nat) : Nat :=
  sector.getD (446 + j * 16) 0

/-- Type-code byte of entry slot `j`: byte 4 of the 16-byte entry at offset
`446 + j * 16` of the boot sector. -/
def typeByte (sector : List Nat) (j : Nat) : Nat :=
  sector.getD (446 + j * 16 + 4) 0

theorem getD_drop_take {l : List Nat} {n m k d : Nat} (h : k < m) :
    ((l.drop n).take m).getD k d = l.getD (n + k) d := by
  simp only [List.getD_eq_getElem?_getD, List.getElem?_take, h, if_pos,
    List.getElem?_drop]

theorem parseEntries_ok_ids (sector : List Nat) (ss : Nat) :
    ∀ (ids : List Nat) (acc : List Partition),
      (∀ j ∈ ids, statusByte sector j = 0 ∨ statusByte sector j = 0x80) →
      ∃ ps, parseEntries sector ss ids acc = .ok ps ∧
        ps.map (·.id) =
          acc.map (·.id) ++ ids.filter (fun j => typeByte sector j != 0) := by
  intro ids
  induction ids with
  | nil => intro acc _; exact ⟨acc, rfl, by simp [parseEntries]⟩
  | cons j rest ih =>
    intro acc h
    have hj := h j (by simp)
    have hrest : ∀ k ∈ rest, statusByte sector k = 0 ∨ statusByte sector k = 0x80 :=
      fun k hk => h k (by simp [hk])
    have hst : ((sector.drop (446 + j * 16)).take 16).getD 0 0 = statusByte sector j := by
      rw [getD_drop_take (by norm_num)]; simp [statusByte]
    have hty : ((sector.drop (446 + j * 16)).take 16).getD 4 0 = typeByte sector j := by
      rw [getD_drop_take (by norm_num)]; simp [typeByte]
    by_cases ht : typeByte sector j = 0
    · obtain ⟨ps, hps, hmap⟩ := ih acc hrest
      refine ⟨ps, ?_, ?_⟩
      · simp only [parseEntries, hst, hty]
        rw [if_pos hj, if_pos ht]
        exact hps
      · simp [hmap, List.filter_cons, ht]
    · obtain ⟨ps, hps, hmap⟩ := ih (acc ++ [(⟨j,
        statusByte sector j == 0x80,
        typeByte sector j,
        readU32 ((sector.drop (446 + j * 16)).take 16) 8 * ss,
        readU32 ((sector.drop (446 + j * 16)).take 16) 8 * ss +
          readU32 ((sector.drop (446 + j * 16)).take 16) 12 * ss⟩ : Partition)]) hrest
      refine ⟨ps, ?_, ?_⟩
      · simp only [parseEntries, hst, hty]
        rw [if_pos hj, if_neg ht]
        exact hps
      · simp [hmap, List.filter_cons, ht]

theorem parseEntries_bad_status (sector : List Nat) (ss : Nat) :
    ∀ (ids : List Nat) (acc : List Partition),
      (∃ j ∈ ids, ¬(statusByte sector j = 0 ∨ statusByte sector j = 0x80)) →
      ∃ i s, parseEntries sector ss ids acc = .error (.invalidStatusCode i s) ∧
        s ≠ 0 ∧ s ≠ 0x80 := by
  intro ids
  induction ids with
  | nil => intro acc h; simp at h
  | cons j rest ih =>
    intro acc h
    have hst : ((sector.drop (446 + j * 16)).take 16).getD 0 0 = statusByte sector j := by
      rw [getD_drop_take (by norm_num)]; simp [statusByte]
    have hty : ((sector.drop (446 + j * 16)).take 16).getD 4 0 = typeByte sector j := by
      rw [getD_drop_take (by norm_num)]; simp [typeByte]
    by_cases hj : statusByte sector j = 0 ∨ statusByte sector j = 0x80
    · have hrest : ∃ k ∈ rest, ¬(statusByte sector k = 0 ∨ statusByte sector k = 0x80) := by
        obtain ⟨k, hk, hbad⟩ := h
        rcases List.mem_cons.1 hk with rfl | hk
        · exact absurd hj hbad
        · exact ⟨k, hk, hbad⟩
      by_cases ht : typeByte sector j = 0
      · obtain ⟨i, s, hps, h0, h80⟩ := ih acc hrest
        refine ⟨i, s, ?_, h0, h80⟩
        simp only [parseEntries, hst, hty]
        rw [if_pos hj, if_pos ht]
        exact hps
      · obtain ⟨i, s, hps, h0, h80⟩ := ih (acc ++ [(⟨j,
          statusByte sector j == 0x80,
          typeByte sector j,
          readU32 ((sector.drop (446 + j * 16)).take 16) 8 * ss,
          readU32 ((sector.drop (446 + j * 16)).take 16) 8 * ss +
            readU32 ((sector.drop (446 + j * 16)).take 16) 12 * ss⟩ : Partition)]) hrest
        refine ⟨i, s, ?_, h0, h80⟩
        simp only [parseEntries, hst, hty]
        rw [if_pos hj, if_neg ht]
        exact hps
    · refine ⟨j, statusByte sector j, ?_, fun h0 => hj (Or.inl h0), fun h80 => hj (Or.inr h80)⟩
      simp only [parseEntries, hst, hty]
      rw [if_neg hj]

end mbr

namespace mbr

/-- Boot sector with one populated slot: slot 0 has status 0x00, type code
0x83, first LBA 1 and sector count 1; slots 1-3 are empty. -/
def c1sector : List Nat :=
  List.replicate 446 0 ++
    [0x00, 0, 0, 0, 0x83, 0, 0, 0, 1, 0, 0, 0, 1, 0, 0, 0] ++
    List.replicate 50 0

set_option maxRecDepth 40000 in
/-- Claim C1: the spec says the emitted partition has `first_byte = first_lba
* 512` and `len = sector_count * 512`.  The code (src/mbr.rs line 67) instead
stores `first_byte + sector_count * 512` in `len`: on a slot with
`first_lba = 1`, `sector_count = 1` the decoder emits `len = 1024`, the
exclusive end offset, not the claimed length `512`.  (The repository's own
integration test tests/manual.rs line 108 asserts the length semantics and
contradicts src/mbr.rs, whose output for that fixture would be
3999268864, not the asserted 3860856832.) -/
theorem mbr_parse_len_is_end_offset :
    parse_partition_table c1sector 512 =
      .ok [⟨0, false, 0x83, 1 * 512, 1 * 512 + 1 * 512⟩] ∧
    (1 * 512 + 1 * 512 : Nat) ≠ 1 * 512 :=
  ⟨by rfl, by decide⟩

/-- Claim C8: for a 512-byte sector whose four status bytes are all 0x00 or
0x80, `parse_partition_table` succeeds and returns one partition per slot with
non-zero type code, in physical slot order, each carrying its physical slot
index as `id` (no re-indexing of gaps); the number of returned partitions is
exactly the number of such slots. -/
theorem mbr_parse_slot_ids (sector : List Nat) (ss : Nat)
    (hlen : sector.length = 512)
    (hstatus : ∀ j < 4, statusByte sector j = 0 ∨ statusByte sector j = 0x80) :
    ∃ ps, parse_partition_table sector ss = .ok ps ∧
      ps.map (·.id) = (List.range 4).filter (fun j => typeByte sector j != 0) ∧
      ps.length = ((List.range 4).filter (fun j => typeByte sector j != 0)).length := by
  obtain ⟨ps, hps, hmap⟩ := parseEntries_ok_ids sector ss (List.range 4) []
    (fun j hj => hstatus j (List.mem_range.1 hj))
  refine ⟨ps, hps, ?_, ?_⟩
  · simpa using hmap
  · have := congrArg List.length hmap
    simpa using this

/-- Boot sector with slots 0 and 2 populated (types 0x0c and 0x83), slots 1
and 3 empty, and the 0x55AA trailing signature. -/
def c8sector : List Nat :=
  List.replicate 446 0 ++
    [0x80, 0, 0, 0, 0x0c, 0, 0, 0, 1, 0, 0, 0, 1, 0, 0, 0] ++
    List.replicate 16 0 ++
    [0x00, 0, 0, 0, 0x83, 0, 0, 0, 2, 0, 0, 0, 3, 0, 0, 0] ++
    List.replicate 16 0 ++ [0x55, 0xAA]

set_option maxRecDepth 40000 in
/-- Witness for `mbr_parse_slot_ids` at `c8sector`: slots 0 and 2 are
populated, so the decoder returns two partitions with ids 0 and 2. -/
theorem mbr_parse_slot_ids_witness :
    ∃ ps, parse_partition_table c8sector 512 = .ok ps ∧
      ps.map (·.id) = (List.range 4).filter (fun j => typeByte c8sector j != 0) ∧
      ps.length = ((List.range 4).filter (fun j => typeByte c8sector j != 0)).length :=
  mbr_parse_slot_ids c8sector 512 (by decide) (by decide)

/-- Claim C10: a slot whose type code is 0 (empty) but whose status byte is
neither 0x00 nor 0x80 makes the decoder fail with the invalid-status-code
error: the status byte is validated before the empty-slot check, so the slot
is not skipped. -/
theorem mbr_parse_status_checked_first (sector : List Nat) (ss : Nat)
    (hlen : sector.length = 512)
    (hbad : ∃ j < 4, typeByte sector j = 0 ∧
      ¬(statusByte sector j = 0 ∨ statusByte sector j = 0x80)) :
    ∃ i s, parse_partition_table sector ss = .error (.invalidStatusCode i s) ∧
      s ≠ 0 ∧ s ≠ 0x80 := by
  obtain ⟨j, hj4, _, hbadj⟩ := hbad
  exact parseEntries_bad_status sector ss (List.range 4) []
    ⟨j, List.mem_range.2 hj4, hbadj⟩

/-- Boot sector whose slot 1 is empty (type code 0) but carries the invalid
status byte 0x42; all other slots are fully zero. -/
def c10sector : List Nat :=
  List.replicate 462 0 ++
    [0x42, 0, 0, 0, 0, 0, 0, 0, 0, 0, 0, 0, 0, 0, 0, 0] ++
    List.replicate 32 0 ++ [0x55, 0xAA]

set_option maxRecDepth 40000 in
/-- Witness for `mbr_parse_status_checked_first` at `c10sector`. -/
theorem mbr_parse_status_checked_first_witness :
    ∃ i s, parse_partition_table c10sector 512 = .error (.invalidStatusCode i s) ∧
      s ≠ 0 ∧ s ≠ 0x80 :=
  mbr_parse_status_checked_first c10sector 512 (by decide) (by decide)

end mbr

namespace gpt

/-- Attributes of a partition as the no_std crate stores them.  The enum
itself lives in the crate root that src/gpt.rs imports (`crate::Attributes`);
its fields are taken from the construction and match sites in src/gpt.rs
(lines 21-27 and 197-207): `MBR` carries `bootable` and `type_code`, `GPT`
carries two 16-byte UUIDs, the raw 8-byte attribute field and the name as a
sequence of u16 code units. -/
inductive Attributes where
  | MBR (bootable : Bool) (type_code : Nat)
  | GPT (type_uuid : List Nat) (partition_uuid : List Nat)
        (attributes : List Nat) (name : List Nat)
deriving DecidableEq, Repr

/-- An entry in the partition table (`crate::Partition` as used by
src/gpt.rs): slot index, absolute first byte, length in bytes, attributes. -/
structure Partition where
  id : Nat
  first_byte : Nat
  len : Nat
  attributes : Attributes
deriving DecidableEq, Repr

/-- Embedding of `is_protective` (src/gpt.rs lines 17-30): true iff the
attributes are `MBR` with `bootable == false` and `type_code == 0xEE`, the
id is 0 and `first_byte` is at most 16 KiB. -/
def is_protective (partition : Partition) : Bool :=
  match partition.attributes with
  | .MBR false type_code =>
    type_code == 0xee && partition.id == 0 &&
      decide (partition.first_byte ≤ 16 * 1024)
  | _ => false

/-- The error enum of src/gpt.rs (lines 219-259).  One variant is renamed:
`EntryCountTooBig` stands for the source's EntryCountIsImplausible (the
entry count does not fit in a u16). -/
inductive GptError where
  | SectorSizeBiggerThanMemory
  | BadEFISignature
  | UnsupportedRevision
  | HeaderTooShort
  | HeaderSizeMustFitInMemory
  | HeaderChecksumMismatch
  | UnsupportedDataInReservedField
  | CurrentLbaMustBeOneInFirstHeader
  | BackwardLbas
  | EverythingMustBeBelowSixtyFourToThePowerOfTwo
  | StartingLbaMustBeTwo
  | EntryCountTooBig
  | EntrySizeIsImplausiblyLarge
  | EntrySizeIsImplausiblySmall
  | FirstUsableLbaIsTooLow
  | ReservedHeaderTailIsNotAllEmpty
  | InvalidTableCRC (table_len : Nat)
  | PartitionEntryOutOfRange
deriving DecidableEq, Repr

/-- Outcome of `read_` over a cursor on a byte list.  `.err e` stands for
`Err(Error::Gpt(e))`; `.ioErr` for an error of the underlying reader
(`read_exact` hitting end of data: `Err(Error::Io(..))` / `UnexpectedEof`);
`.panic` for a Rust panic (`assert!`, an out-of-range slice index, or
division by zero).  The reader is `io::Cursor`-like: seeking to any absolute
position succeeds. -/
inductive ReadOutcome where
  | ok (partitions : List Partition)
  | err (e : GptError)
  | ioErr
  | panic
deriving DecidableEq, Repr

/-- The bytes `b"EFI PART"`. -/
def efiSig : List Nat := [0x45, 0x46, 0x49, 0x20, 0x50, 0x41, 0x52, 0x54]

/-- The 520-byte buffer `lba1` after `reader.read_exact(&mut
lba1[..sector_size])` from position `sector_size`: the first `ss` bytes come
from the image, the rest keep the `[0u8; MAX_SECTOR_SIZE]` initialisation. -/
def lba1buf (img : List Nat) (ss : Nat) : List Nat :=
  (img.drop ss).take ss ++ List.replicate (520 - ss) 0

/-- `lba1` with the CRC field bytes 0x10..0x14 zeroed ("CRC is calculated
with the CRC zero'd out", src/gpt.rs lines 93-95). -/
def zeroCrc (l : List Nat) : List Nat :=
  (((l.set 0x10 0).set 0x11 0).set 0x12 0).set 0x13 0

/-- Header size: u32 LE at offset 0x0c of `lba1`. -/
def hdrSize (img : List Nat) (ss : Nat) : Nat :=
  readU32 (lba1buf img ss) 0x0c

/-- Stored header CRC: u32 LE at offset 0x10 of `lba1`. -/
def storedHeaderCrc (img : List Nat) (ss : Nat) : Nat :=
  readU32 (lba1buf img ss) 0x10

/-- The zeroed header buffer the checksum is computed over. -/
def zbuf (img : List Nat) (ss : Nat) : List Nat :=
  zeroCrc (lba1buf img ss)

/-- The fields `read_` extracts from a valid header (src/gpt.rs lines
81-151): header size, usable LBA window, entry count, entry size, stored
table CRC. -/
structure Header where
  header_size : Nat
  first_usable_lba : Nat
  last_usable_lba : Nat
  entries : Nat
  entry_size : Nat
  table_crc : Nat
deriving DecidableEq, Repr

/-- Outcome of the header-validation stage. -/
inductive HeaderOutcome where
  | ok (hd : Header)
  | err (e : GptError)
  | panic
deriving DecidableEq, Repr

/-- Name field decode of src/gpt.rs lines 190-193: 36 little-endian u16 code
units read at byte offsets `2 * idx` of the 72-byte name field, truncated at
the first zero unit. -/
def nameUnits (name_data : List Nat) : List Nat :=
  ((List.range ((0x80 - 0x38) / 2)).map (fun idx => readU16 name_data (2 * idx))).takeWhile
    (fun val => val != 0)

/-- Entry loop of `read_` (src/gpt.rs lines 170-208), processing the slot
indices in `ids` in order.  Each entry is the `entry_size`-byte slice of the
table at `id * entry_size` (a slice past the table's end is a Rust panic —
reachable only when `entry_size * entries` exceeded the 24576-byte backing
store, see `read_`).  A slot whose 16-byte type UUID is all zero is skipped.
Otherwise the LBA bounds are checked against the usable window and the
partition is emitted with `first_byte = first_lba * sector_size` and
`len = (last_lba - first_lba + 1) * sector_size` (u64 arithmetic, hence the
explicit `% 2 ^ 64`; the subtraction is guarded by `first_lba ≤ last_lba`). -/
def gptEntries (table : List Nat) (es fu lu ss : Nat) :
    List Nat → List Partition → ReadOutcome
  | [], acc => .ok acc
  | id :: rest, acc =>
    if table.length < (id + 1) * es then .panic
    else
      let entry := (table.drop (id * es)).take es
      if allZero (entry.take 16) then gptEntries table es fu lu ss rest acc
      else
        let first_lba := readU64 entry 0x20
        let last_lba := readU64 entry 0x28
        if first_lba > last_lba ∨ first_lba < fu ∨ last_lba > lu then
          .err .PartitionEntryOutOfRange
        else
          gptEntries table es fu lu ss rest (acc ++
            [⟨id, first_lba * ss % 2 ^ 64, (last_lba - first_lba + 1) * ss % 2 ^ 64,
              .GPT (entry.take 16) ((entry.drop 0x10).take 16)
                ((entry.drop 0x30).take 8) (nameUnits ((entry.drop 0x38).take 72))⟩])

/-- Header validation of `read_` (src/gpt.rs lines 73-155) on the 520-byte
`lba1` buffer, in source order: EFI signature, revision `{0,0,1,0}`,
`header_size ≥ 92` (u32 at 0x0c; `usize::try_from` of a u32 cannot fail, so
`HeaderSizeMustFitInMemory` is unreachable; `&lba1[..header_size]` with
`header_size > 520` is a Rust slice panic), stored CRC at 0x10 against the
CRC-32 of the zeroed buffer, reserved field 0x14, current LBA = 1, usable
LBA window ordered, `last_usable_lba ≤ u64::MAX / sector_size`
(`u64::MAX / sector_size` is a division-by-zero panic when `sector_size = 0`,
unreachable because the all-zero buffer fails the signature check), entry
array start = 2, entry count and size fit u16, `entry_size ≥ 128`,
`first_usable_lba ≥ 2 + entry_size * entries / sector_size`, reserved tail
all zero.  On success the parsed fields are returned.  Reads after the
zeroing loop take the mutated buffer, as in the source (equal at those
offsets). -/
def checkHeader (lba1 : List Nat) (ss : Nat) : HeaderOutcome :=
  if lba1.take 8 ≠ efiSig then .err .BadEFISignature
  else if (lba1.drop 8).take 4 ≠ [0, 0, 1, 0] then .err .UnsupportedRevision
  else if readU32 lba1 0x0c < 92 then .err .HeaderTooShort
  else if 520 < readU32 lba1 0x0c then .panic
  else if readU32 lba1 0x10 ≠ crc32 ((zeroCrc lba1).take (readU32 lba1 0x0c)) then
    .err .HeaderChecksumMismatch
  else if readU32 (zeroCrc lba1) 0x14 ≠ 0 then .err .UnsupportedDataInReservedField
  else if readU64 (zeroCrc lba1) 0x18 ≠ 1 then .err .CurrentLbaMustBeOneInFirstHeader
  else if readU64 (zeroCrc lba1) 0x28 > readU64 (zeroCrc lba1) 0x30 then .err .BackwardLbas
  else if ss = 0 then .panic
  else if readU64 (zeroCrc lba1) 0x30 > (2 ^ 64 - 1) / ss then
    .err .EverythingMustBeBelowSixtyFourToThePowerOfTwo
  else if readU64 (zeroCrc lba1) 0x48 ≠ 2 then .err .StartingLbaMustBeTwo
  else if 2 ^ 16 ≤ readU32 (zeroCrc lba1) 0x50 then .err .EntryCountTooBig
  else if 2 ^ 16 ≤ readU32 (zeroCrc lba1) 0x54 then .err .EntrySizeIsImplausiblyLarge
  else if readU32 (zeroCrc lba1) 0x54 < 128 then .err .EntrySizeIsImplausiblySmall
  else if readU64 (zeroCrc lba1) 0x28 <
      2 + readU32 (zeroCrc lba1) 0x54 * readU32 (zeroCrc lba1) 0x50 / ss then
    .err .FirstUsableLbaIsTooLow
  else if allZero ((zeroCrc lba1).drop (readU32 lba1 0x0c)) = false then
    .err .ReservedHeaderTailIsNotAllEmpty
  else
    .ok ⟨readU32 lba1 0x0c, readU64 (zeroCrc lba1) 0x28, readU64 (zeroCrc lba1) 0x30,
      readU32 (zeroCrc lba1) 0x50, readU32 (zeroCrc lba1) 0x54, readU32 (zeroCrc lba1) 0x58⟩

/-- Embedding of `read_` (src/gpt.rs lines 53-211) over an `io::Cursor`-like
reader on the byte list `img`.  In source order: seek to `sector_size`
(always succeeds on a cursor); `usize::try_from(sector_size)` (cannot fail
with 64-bit `usize`, so `SectorSizeBiggerThanMemory` is unreachable);
`assert!(sector_size_mem <= MAX_SECTOR_SIZE)` → `.panic`; read the header
sector (`.ioErr` when the image is too short); validate the header
(`checkHeader`); read the entry table — the `smallvec![0u8; 24576]` is
`truncate`d to `entry_size * entries`, which caps at the existing 24576
length when the product is larger, hence the `min`; check the table CRC;
parse the entries (`gptEntries`). -/
def read_ (img : List Nat) (ss : Nat) : ReadOutcome :=
  if 520 < ss then .panic
  else if img.length < ss + ss then .ioErr
  else
    match checkHeader (lba1buf img ss) ss with
    | .panic => .panic
    | .err e => .err e
    | .ok hd =>
      if img.length < ss + ss + min (hd.entry_size * hd.entries) 24576 then .ioErr
      else if hd.table_crc ≠
          crc32 ((img.drop (ss + ss)).take (min (hd.entry_size * hd.entries) 24576)) then
        .err (.InvalidTableCRC (min (hd.entry_size * hd.entries) 24576))
      else
        gptEntries ((img.drop (ss + ss)).take (min (hd.entry_size * hd.entries) 24576))
          hd.entry_size hd.first_usable_lba hd.last_usable_lba ss
          (List.range hd.entries) []

end gpt

namespace gpt

/-- Claim C3: `is_protective` holds exactly when the four conditions do:
MBR attributes with type code 0xEE and not bootable, id 0, and first byte at
most 16 KiB.  Changing any one condition therefore makes it false. -/
theorem is_protective_iff (p : Partition) :
    is_protective p = true ↔
      p.attributes = .MBR false 0xee ∧ p.id = 0 ∧ p.first_byte ≤ 16 * 1024 := by
  obtain ⟨id, fb, len, attrs⟩ := p
  cases attrs with
  | MBR bootable tc =>
    cases bootable <;>
      simp [is_protective, Bool.and_eq_true, beq_iff_eq, decide_eq_true_eq,
        and_assoc]
  | GPT a b c d => simp [is_protective]

theorem gptEntries_err_out_of_range (table : List Nat) (es fu lu ss : Nat) :
    ∀ (ids : List Nat) (acc : List Partition) (e : GptError),
      gptEntries table es fu lu ss ids acc = .err e →
      e = .PartitionEntryOutOfRange := by
  intro ids
  induction ids with
  | nil => intro acc e h; simp [gptEntries] at h
  | cons id rest ih =>
    intro acc e h
    simp only [gptEntries] at h
    split_ifs at h
    all_goals
      first
        | exact ReadOutcome.noConfusion h
        | exact (ReadOutcome.err.inj h).symm
        | exact ih _ e h

theorem checkHeader_err_cases (lba1 : List Nat) (ss : Nat) (e : GptError)
    (h : checkHeader lba1 ss = .err e) : e ≠ .SectorSizeBiggerThanMemory := by
  intro hc
  subst hc
  unfold checkHeader at h
  by_cases c1 : lba1.take 8 ≠ efiSig
  · rw [if_pos c1] at h; exact GptError.noConfusion (HeaderOutcome.err.inj h)
  rw [if_neg c1] at h
  by_cases c2 : (lba1.drop 8).take 4 ≠ [0, 0, 1, 0]
  · rw [if_pos c2] at h; exact GptError.noConfusion (HeaderOutcome.err.inj h)
  rw [if_neg c2] at h
  by_cases c3 : readU32 lba1 0x0c < 92
  · rw [if_pos c3] at h; exact GptError.noConfusion (HeaderOutcome.err.inj h)
  rw [if_neg c3] at h
  by_cases c4 : 520 < readU32 lba1 0x0c
  · rw [if_pos c4] at h; exact HeaderOutcome.noConfusion h
  rw [if_neg c4] at h
  by_cases c5 : readU32 lba1 0x10 ≠ crc32 ((zeroCrc lba1).take (readU32 lba1 0x0c))
  · rw [if_pos c5] at h; exact GptError.noConfusion (HeaderOutcome.err.inj h)
  rw [if_neg c5] at h
  by_cases c6 : readU32 (zeroCrc lba1) 0x14 ≠ 0
  · rw [if_pos c6] at h; exact GptError.noConfusion (HeaderOutcome.err.inj h)
  rw [if_neg c6] at h
  by_cases c7 : readU64 (zeroCrc lba1) 0x18 ≠ 1
  · rw [if_pos c7] at h; exact GptError.noConfusion (HeaderOutcome.err.inj h)
  rw [if_neg c7] at h
  by_cases c8 : readU64 (zeroCrc lba1) 0x28 > readU64 (zeroCrc lba1) 0x30
  · rw [if_pos c8] at h; exact GptError.noConfusion (HeaderOutcome.err.inj h)
  rw [if_neg c8] at h
  by_cases c9 : ss = 0
  · rw [if_pos c9] at h; exact HeaderOutcome.noConfusion h
  rw [if_neg c9] at h
  by_cases c10 : readU64 (zeroCrc lba1) 0x30 > (2 ^ 64 - 1) / ss
  · rw [if_pos c10] at h; exact GptError.noConfusion (HeaderOutcome.err.inj h)
  rw [if_neg c10] at h
  by_cases c11 : readU64 (zeroCrc lba1) 0x48 ≠ 2
  · rw [if_pos c11] at h; exact GptError.noConfusion (HeaderOutcome.err.inj h)
  rw [if_neg c11] at h
  by_cases c12 : 2 ^ 16 ≤ readU32 (zeroCrc lba1) 0x50
  · rw [if_pos c12] at h; exact GptError.noConfusion (HeaderOutcome.err.inj h)
  rw [if_neg c12] at h
  by_cases c13 : 2 ^ 16 ≤ readU32 (zeroCrc lba1) 0x54
  · rw [if_pos c13] at h; exact GptError.noConfusion (HeaderOutcome.err.inj h)
  rw [if_neg c13] at h
  by_cases c14 : readU32 (zeroCrc lba1) 0x54 < 128
  · rw [if_pos c14] at h; exact GptError.noConfusion (HeaderOutcome.err.inj h)
  rw [if_neg c14] at h
  by_cases c15 : readU64 (zeroCrc lba1) 0x28 <
      2 + readU32 (zeroCrc lba1) 0x54 * readU32 (zeroCrc lba1) 0x50 / ss
  · rw [if_pos c15] at h; exact GptError.noConfusion (HeaderOutcome.err.inj h)
  rw [if_neg c15] at h
  by_cases c16 : allZero ((zeroCrc lba1).drop (readU32 lba1 0x0c)) = false
  · rw [if_pos c16] at h; exact GptError.noConfusion (HeaderOutcome.err.inj h)
  rw [if_neg c16] at h
  exact HeaderOutcome.noConfusion h

/-- Claim C9: a sector size above `MAX_SECTOR_SIZE` (520) that is still a
representable u64 (and so fits a 64-bit `usize`) makes `read_` panic on the
`assert!` rather than return an error; and no input at all produces
`SectorSizeBiggerThanMemory` (the `usize::try_from` of a u64 cannot fail on a
64-bit host). -/
theorem gpt_read_oversized_sector_panics :
    (∀ (img : List Nat) (ss : Nat), 520 < ss → ss < 2 ^ 64 →
      read_ img ss = .panic) ∧
    (∀ (img : List Nat) (ss : Nat) (e : GptError),
      read_ img ss = .err e → e ≠ .SectorSizeBiggerThanMemory) := by
  constructor
  · intro img ss h _
    unfold read_
    rw [if_pos h]
  · intro img ss e h hc
    subst hc
    unfold read_ at h
    by_cases h1 : 520 < ss
    · rw [if_pos h1] at h
      exact ReadOutcome.noConfusion h
    · rw [if_neg h1] at h
      by_cases h2 : img.length < ss + ss
      · rw [if_pos h2] at h
        exact ReadOutcome.noConfusion h
      · rw [if_neg h2] at h
        rcases hh : checkHeader (lba1buf img ss) ss with hd | e2 | -
        all_goals simp only [hh] at h
        · split_ifs at h
          all_goals
            first
              | exact ReadOutcome.noConfusion h
              | exact GptError.noConfusion (ReadOutcome.err.inj h)
              | exact GptError.noConfusion (gptEntries_err_out_of_range _ _ _ _ _ _ _ _ h)
        · exact checkHeader_err_cases _ _ _ hh (ReadOutcome.err.inj h)
        · exact ReadOutcome.noConfusion h

end gpt

section CrcFacts

theorem getD_set_ne (l : List Nat) {i j : Nat} (b d : Nat) (h : i ≠ j) :
    (l.set i b).getD j d = l.getD j d := by
  simp [List.getD_eq_getElem?_getD, List.getElem?_set_ne h]

theorem readU16_set {l : List Nat} {i off : Nat} (b : Nat)
    (h : i < off ∨ off + 2 ≤ i) :
    readU16 (l.set i b) off = readU16 l off := by
  unfold readU16
  rw [getD_set_ne l b 0 (by omega), getD_set_ne l b 0 (by omega)]

theorem readU32_set {l : List Nat} {i off : Nat} (b : Nat)
    (h : i < off ∨ off + 4 ≤ i) :
    readU32 (l.set i b) off = readU32 l off := by
  unfold readU32
  rw [readU16_set b (by omega), readU16_set b (by omega)]

theorem readU64_set {l : List Nat} {i off : Nat} (b : Nat)
    (h : i < off ∨ off + 8 ≤ i) :
    readU64 (l.set i b) off = readU64 l off := by
  unfold readU64
  rw [readU32_set b (by omega), readU32_set b (by omega)]

theorem take_set_of_le (l : List Nat) (b : Nat) {i k : Nat} (h : k ≤ i) :
    (l.set i b).take k = l.take k := by
  rw [List.set_take]
  exact List.set_eq_of_length_le (le_trans (List.length_take_le k l) h)

theorem eq_take_cons_drop {l : List Nat} {i : Nat} (h : i < l.length) :
    l = l.take i ++ l.getD i 0 :: l.drop (i + 1) := by
  conv_lhs => rw [← List.take_append_drop i l]
  rw [List.drop_eq_getElem_cons h, List.getD_eq_getElem l 0 h]

theorem set_eq_take_cons_drop (l : List Nat) (b : Nat) {i : Nat} (h : i < l.length) :
    l.set i b = l.take i ++ b :: l.drop (i + 1) := by
  rw [List.set_eq_take_append_cons_drop, if_pos h]

theorem crcRound_lt {c : Nat} (h : c < 2 ^ 32) : crcRound c < 2 ^ 32 := by
  unfold crcRound
  split_ifs
  · exact Nat.xor_lt_two_pow (by omega) (by norm_num)
  · omega

theorem xor_poly_ge {a : Nat} (h : a < 2 ^ 31) : 2 ^ 31 ≤ a ^^^ 0xEDB88320 := by
  by_contra hlt
  push_neg at hlt
  have hfalse := Nat.testBit_lt_two_pow hlt
  rw [Nat.testBit_xor, Nat.testBit_lt_two_pow h] at hfalse
  simp at hfalse
  exact absurd hfalse (by decide)

theorem crcRound_inj {c c' : Nat} (hc : c < 2 ^ 32) (hc' : c' < 2 ^ 32)
    (h : crcRound c = crcRound c') : c = c' := by
  unfold crcRound at h
  by_cases h1 : c % 2 = 1 <;> by_cases h2 : c' % 2 = 1
  · rw [if_pos h1, if_pos h2] at h
    have h3 : c / 2 = c' / 2 := by
      have := congrArg (· ^^^ 0xEDB88320) h
      simpa [Nat.xor_assoc, Nat.xor_cancel_right] using this
    omega
  · rw [if_pos h1, if_neg h2] at h
    have hge : 2 ^ 31 ≤ (c / 2) ^^^ 0xEDB88320 := xor_poly_ge (by omega)
    rw [h] at hge
    omega
  · rw [if_neg h1, if_pos h2] at h
    have hge : 2 ^ 31 ≤ (c' / 2) ^^^ 0xEDB88320 := xor_poly_ge (by omega)
    rw [← h] at hge
    omega
  · rw [if_neg h1, if_neg h2] at h
    omega

theorem crcRoundIter_lt (n : Nat) {c : Nat} (h : c < 2 ^ 32) :
    crcRound^[n] c < 2 ^ 32 := by
  induction n generalizing c with
  | zero => simpa using h
  | succ n ih =>
    rw [Function.iterate_succ_apply]
    exact ih (crcRound_lt h)

theorem crcRoundIter_inj (n : Nat) {c c' : Nat} (hc : c < 2 ^ 32)
    (hc' : c' < 2 ^ 32) (h : crcRound^[n] c = crcRound^[n] c') : c = c' := by
  induction n generalizing c c' with
  | zero => simpa using h
  | succ n ih =>
    rw [Function.iterate_succ_apply, Function.iterate_succ_apply] at h
    exact crcRound_inj hc hc' (ih (crcRound_lt hc) (crcRound_lt hc') h)

theorem crcStep_lt {c b : Nat} (hc : c < 2 ^ 32) (hb : b < 256) :
    crcStep c b < 2 ^ 32 := by
  unfold crcStep
  exact crcRoundIter_lt 8 (Nat.xor_lt_two_pow hc (by omega))

theorem crcStep_inj_state {b : Nat} (hb : b < 256) {c c' : Nat}
    (hc : c < 2 ^ 32) (hc' : c' < 2 ^ 32) (h : crcStep c b = crcStep c' b) :
    c = c' := by
  unfold crcStep at h
  have h2 := crcRoundIter_inj 8 (Nat.xor_lt_two_pow hc (by omega))
    (Nat.xor_lt_two_pow hc' (by omega)) h
  have := congrArg (· ^^^ b) h2
  simpa [Nat.xor_assoc, Nat.xor_cancel_right] using this

theorem crcStep_ne_byte {c : Nat} (hc : c < 2 ^ 32) {x y : Nat} (hx : x < 256)
    (hy : y < 256) (hxy : x ≠ y) : crcStep c x ≠ crcStep c y := by
  intro h
  unfold crcStep at h
  have h2 := crcRoundIter_inj 8 (Nat.xor_lt_two_pow hc (by omega))
    (Nat.xor_lt_two_pow hc (by omega)) h
  apply hxy
  have := congrArg (c ^^^ ·) h2
  simpa [Nat.xor_cancel_left] using this

theorem foldl_crcStep_lt (l : List Nat) (hl : ∀ b ∈ l, b < 256) {s : Nat}
    (hs : s < 2 ^ 32) : l.foldl crcStep s < 2 ^ 32 := by
  induction l generalizing s with
  | nil => simpa using hs
  | cons b t ih =>
    rw [List.foldl_cons]
    exact ih (fun v hv => hl v (by simp [hv])) (crcStep_lt hs (hl b (by simp)))

theorem foldl_crcStep_inj (l : List Nat) (hl : ∀ b ∈ l, b < 256) {s t : Nat}
    (hs : s < 2 ^ 32) (ht : t < 2 ^ 32) (hst : s ≠ t) :
    l.foldl crcStep s ≠ l.foldl crcStep t := by
  induction l generalizing s t with
  | nil => simpa using hst
  | cons b r ih =>
    rw [List.foldl_cons, List.foldl_cons]
    have hb : b < 256 := hl b (by simp)
    exact ih (fun v hv => hl v (by simp [hv])) (crcStep_lt hs hb) (crcStep_lt ht hb)
      (fun he => hst (crcStep_inj_state hb hs ht he))

/-- CRC-32 distinguishes byte lists that differ in exactly one position. -/
theorem crc32_ne_single_diff (a c : List Nat) {x y : Nat}
    (ha : ∀ b ∈ a, b < 256) (hc : ∀ b ∈ c, b < 256)
    (hx : x < 256) (hy : y < 256) (hxy : x ≠ y) :
    crc32 (a ++ x :: c) ≠ crc32 (a ++ y :: c) := by
  unfold crc32
  intro h
  have h2 : (a ++ x :: c).foldl crcStep 0xFFFFFFFF =
      (a ++ y :: c).foldl crcStep 0xFFFFFFFF := by
    have := congrArg (· ^^^ 0xFFFFFFFF) h
    simpa [Nat.xor_assoc, Nat.xor_cancel_right] using this
  rw [List.foldl_append, List.foldl_append, List.foldl_cons, List.foldl_cons] at h2
  have hs : a.foldl crcStep 0xFFFFFFFF < 2 ^ 32 := foldl_crcStep_lt a ha (by norm_num)
  exact foldl_crcStep_inj c hc (crcStep_lt hs hx) (crcStep_lt hs hy)
    (crcStep_ne_byte hs hx hy hxy) h2

/-- Changing one in-range byte of a list (to a different value) changes its
CRC-32. -/
theorem crc32_ne_set (l : List Nat) {i b : Nat} (hi : i < l.length)
    (hl : ∀ v ∈ l, v < 256) (hb : b < 256) (hne : b ≠ l.getD i 0) :
    crc32 (l.set i b) ≠ crc32 l := by
  have hdec := eq_take_cons_drop hi
  rw [set_eq_take_cons_drop l b hi]
  conv_rhs => rw [hdec]
  exact crc32_ne_single_diff (l.take i) (l.drop (i + 1))
    (fun v hv => hl v (List.mem_of_mem_take hv))
    (fun v hv => hl v (List.mem_of_mem_drop hv))
    hb
    (by
      have : l.getD i 0 ∈ l := by
        rw [List.getD_eq_getElem l 0 hi]
        exact List.getElem_mem hi
      exact hl _ this)
    hne

end CrcFacts

namespace gpt

theorem checkHeader_ok_inv (lba1 : List Nat) (ss : Nat) (hd : Header)
    (h : checkHeader lba1 ss = .ok hd) :
    lba1.take 8 = efiSig ∧
    (lba1.drop 8).take 4 = [0, 0, 1, 0] ∧
    92 ≤ readU32 lba1 0x0c ∧
    readU32 lba1 0x0c ≤ 520 ∧
    readU32 lba1 0x10 = crc32 ((zeroCrc lba1).take (readU32 lba1 0x0c)) ∧
    ss ≠ 0 ∧
    readU64 (zeroCrc lba1) 0x30 ≤ (2 ^ 64 - 1) / ss ∧
    2 + readU32 (zeroCrc lba1) 0x54 * readU32 (zeroCrc lba1) 0x50 / ss ≤
      readU64 (zeroCrc lba1) 0x28 ∧
    hd = ⟨readU32 lba1 0x0c, readU64 (zeroCrc lba1) 0x28,
      readU64 (zeroCrc lba1) 0x30, readU32 (zeroCrc lba1) 0x50,
      readU32 (zeroCrc lba1) 0x54, readU32 (zeroCrc lba1) 0x58⟩ := by
  unfold checkHeader at h
  by_cases c1 : lba1.take 8 ≠ efiSig
  · rw [if_pos c1] at h; exact HeaderOutcome.noConfusion h
  rw [if_neg c1] at h
  by_cases c2 : (lba1.drop 8).take 4 ≠ [0, 0, 1, 0]
  · rw [if_pos c2] at h; exact HeaderOutcome.noConfusion h
  rw [if_neg c2] at h
  by_cases c3 : readU32 lba1 0x0c < 92
  · rw [if_pos c3] at h; exact HeaderOutcome.noConfusion h
  rw [if_neg c3] at h
  by_cases c4 : 520 < readU32 lba1 0x0c
  · rw [if_pos c4] at h; exact HeaderOutcome.noConfusion h
  rw [if_neg c4] at h
  by_cases c5 : readU32 lba1 0x10 ≠ crc32 ((zeroCrc lba1).take (readU32 lba1 0x0c))
  · rw [if_pos c5] at h; exact HeaderOutcome.noConfusion h
  rw [if_neg c5] at h
  by_cases c6 : readU32 (zeroCrc lba1) 0x14 ≠ 0
  · rw [if_pos c6] at h; exact HeaderOutcome.noConfusion h
  rw [if_neg c6] at h
  by_cases c7 : readU64 (zeroCrc lba1) 0x18 ≠ 1
  · rw [if_pos c7] at h; exact HeaderOutcome.noConfusion h
  rw [if_neg c7] at h
  by_cases c8 : readU64 (zeroCrc lba1) 0x28 > readU64 (zeroCrc lba1) 0x30
  · rw [if_pos c8] at h; exact HeaderOutcome.noConfusion h
  rw [if_neg c8] at h
  by_cases c9 : ss = 0
  · rw [if_pos c9] at h; exact HeaderOutcome.noConfusion h
  rw [if_neg c9] at h
  by_cases c10 : readU64 (zeroCrc lba1) 0x30 > (2 ^ 64 - 1) / ss
  · rw [if_pos c10] at h; exact HeaderOutcome.noConfusion h
  rw [if_neg c10] at h
  by_cases c11 : readU64 (zeroCrc lba1) 0x48 ≠ 2
  · rw [if_pos c11] at h; exact HeaderOutcome.noConfusion h
  rw [if_neg c11] at h
  by_cases c12 : 2 ^ 16 ≤ readU32 (zeroCrc lba1) 0x50
  · rw [if_pos c12] at h; exact HeaderOutcome.noConfusion h
  rw [if_neg c12] at h
  by_cases c13 : 2 ^ 16 ≤ readU32 (zeroCrc lba1) 0x54
  · rw [if_pos c13] at h; exact HeaderOutcome.noConfusion h
  rw [if_neg c13] at h
  by_cases c14 : readU32 (zeroCrc lba1) 0x54 < 128
  · rw [if_pos c14] at h; exact HeaderOutcome.noConfusion h
  rw [if_neg c14] at h
  by_cases c15 : readU64 (zeroCrc lba1) 0x28 <
      2 + readU32 (zeroCrc lba1) 0x54 * readU32 (zeroCrc lba1) 0x50 / ss
  · rw [if_pos c15] at h; exact HeaderOutcome.noConfusion h
  rw [if_neg c15] at h
  by_cases c16 : allZero ((zeroCrc lba1).drop (readU32 lba1 0x0c)) = false
  · rw [if_pos c16] at h; exact HeaderOutcome.noConfusion h
  rw [if_neg c16] at h
  exact ⟨not_not.mp c1, not_not.mp c2, Nat.not_lt.mp c3, Nat.not_lt.mp c4,
    not_not.mp c5, c9, Nat.not_lt.mp c10, Nat.not_lt.mp c15,
    (HeaderOutcome.ok.inj h).symm⟩

theorem checkHeader_mismatch (lba1 : List Nat) (ss : Nat)
    (h1 : lba1.take 8 = efiSig) (h2 : (lba1.drop 8).take 4 = [0, 0, 1, 0])
    (h3 : 92 ≤ readU32 lba1 0x0c) (h4 : readU32 lba1 0x0c ≤ 520)
    (h5 : readU32 lba1 0x10 ≠ crc32 ((zeroCrc lba1).take (readU32 lba1 0x0c))) :
    checkHeader lba1 ss = .err .HeaderChecksumMismatch := by
  unfold checkHeader
  rw [if_neg (by simp [h1]), if_neg (by simp [h2]), if_neg (Nat.not_lt.mpr h3),
    if_neg (Nat.not_lt.mpr h4), if_pos h5]

theorem read_ok_inv (img : List Nat) (ss : Nat) (ps : List Partition)
    (h : read_ img ss = .ok ps) :
    ¬ 520 < ss ∧ ¬ img.length < ss + ss ∧
    ∃ hd, checkHeader (lba1buf img ss) ss = .ok hd ∧
      gptEntries ((img.drop (ss + ss)).take (min (hd.entry_size * hd.entries) 24576))
        hd.entry_size hd.first_usable_lba hd.last_usable_lba ss
        (List.range hd.entries) [] = .ok ps := by
  unfold read_ at h
  by_cases h1 : 520 < ss
  · rw [if_pos h1] at h; exact ReadOutcome.noConfusion h
  rw [if_neg h1] at h
  by_cases h2 : img.length < ss + ss
  · rw [if_pos h2] at h; exact ReadOutcome.noConfusion h
  rw [if_neg h2] at h
  refine ⟨h1, h2, ?_⟩
  rcases hh : checkHeader (lba1buf img ss) ss with hd | e2 | -
  all_goals simp only [hh] at h
  · refine ⟨hd, rfl, ?_⟩
    by_cases h3 : img.length < ss + ss + min (hd.entry_size * hd.entries) 24576
    · rw [if_pos h3] at h; exact ReadOutcome.noConfusion h
    rw [if_neg h3] at h
    by_cases h4 : hd.table_crc ≠
        crc32 ((img.drop (ss + ss)).take (min (hd.entry_size * hd.entries) 24576))
    · rw [if_pos h4] at h; exact ReadOutcome.noConfusion h
    rw [if_neg h4] at h
    exact h
  · exact ReadOutcome.noConfusion h
  · exact ReadOutcome.noConfusion h

theorem read_of_checkHeader_err (img : List Nat) (ss : Nat) (e : GptError)
    (h1 : ¬ 520 < ss) (h2 : ¬ img.length < ss + ss)
    (hh : checkHeader (lba1buf img ss) ss = .err e) :
    read_ img ss = .err e := by
  unfold read_
  rw [if_neg h1, if_neg h2, hh]

end gpt

namespace gpt

theorem lba1buf_length (img : List Nat) (ss : Nat) (h1 : ¬ 520 < ss)
    (h2 : ¬ img.length < ss + ss) : (lba1buf img ss).length = 520 := by
  simp only [lba1buf, List.length_append, List.length_take, List.length_drop,
    List.length_replicate]
  omega

theorem lba1buf_set (img : List Nat) (ss i b : Nat)
    (h2 : ¬ img.length < ss + ss) (hi : i < ss) :
    lba1buf (img.set (ss + i) b) ss = (lba1buf img ss).set i b := by
  unfold lba1buf
  rw [List.drop_set, if_neg (by omega)]
  have : ss + i - ss = i := by omega
  rw [this, List.set_take, List.set_append,
    if_pos (by
      simp only [List.length_take, List.length_drop]
      omega)]

theorem lba1buf_getD (img : List Nat) (ss i : Nat)
    (h2 : ¬ img.length < ss + ss) (hi : i < ss) :
    (lba1buf img ss).getD i 0 = img.getD (ss + i) 0 := by
  unfold lba1buf
  rw [List.getD_append _ _ _ _ (by
    simp only [List.length_take, List.length_drop]
    omega)]
  exact mbr.getD_drop_take hi

theorem lba1buf_bytes (img : List Nat) (ss : Nat) (hb : ∀ v ∈ img, v < 256) :
    ∀ v ∈ lba1buf img ss, v < 256 := by
  intro v hv
  rcases List.mem_append.mp hv with hv | hv
  · exact hb v (List.mem_of_mem_drop (List.mem_of_mem_take hv))
  · rw [List.eq_of_mem_replicate hv]; omega

theorem zeroCrc_bytes (l : List Nat) (hb : ∀ v ∈ l, v < 256) :
    ∀ v ∈ zeroCrc l, v < 256 := by
  intro v hv
  unfold zeroCrc at hv
  rcases List.mem_or_eq_of_mem_set hv with hv | rfl
  · rcases List.mem_or_eq_of_mem_set hv with hv | rfl
    · rcases List.mem_or_eq_of_mem_set hv with hv | rfl
      · rcases List.mem_or_eq_of_mem_set hv with hv | rfl
        · exact hb v hv
        all_goals omega
      all_goals omega
    all_goals omega
  all_goals omega

theorem zeroCrc_set (l : List Nat) (i b : Nat) (hi : ¬ (0x10 ≤ i ∧ i ≤ 0x13)) :
    zeroCrc (l.set i b) = (zeroCrc l).set i b := by
  unfold zeroCrc
  have e1 : (l.set i b).set 16 0 = (l.set 16 0).set i b :=
    List.set_comm _ _ _ (by omega)
  have e2 : ((l.set 16 0).set i b).set 17 0 = ((l.set 16 0).set 17 0).set i b :=
    List.set_comm _ _ _ (by omega)
  have e3 : (((l.set 16 0).set 17 0).set i b).set 18 0 =
      (((l.set 16 0).set 17 0).set 18 0).set i b :=
    List.set_comm _ _ _ (by omega)
  have e4 : ((((l.set 16 0).set 17 0).set 18 0).set i b).set 19 0 =
      ((((l.set 16 0).set 17 0).set 18 0).set 19 0).set i b :=
    List.set_comm _ _ _ (by omega)
  rw [e1, e2, e3, e4]

theorem zeroCrc_length (l : List Nat) : (zeroCrc l).length = l.length := by
  simp [zeroCrc]

theorem zeroCrc_getD (l : List Nat) (i : Nat) (hi : ¬ (0x10 ≤ i ∧ i ≤ 0x13)) :
    (zeroCrc l).getD i 0 = l.getD i 0 := by
  unfold zeroCrc
  rw [getD_set_ne _ _ _ (by omega), getD_set_ne _ _ _ (by omega),
    getD_set_ne _ _ _ (by omega), getD_set_ne _ _ _ (by omega)]

/-- Claim C4 (amended): on any image the decoder accepts, changing a single
byte of the header at an offset `i` with `0x14 ≤ i < header_size` (and
within the stored header sector, `i < sector_size`) to a different value
makes `read_` fail with `HeaderChecksumMismatch`: the fields checked before
the checksum (signature, revision, header size) are unchanged, the stored
CRC is unchanged, and the recomputed CRC-32 differs at a single-byte
change. -/
theorem gpt_header_mutation_mismatch (img : List Nat) (ss : Nat)
    (ps : List Partition) (i b : Nat)
    (hbytes : ∀ v ∈ img, v < 256)
    (hok : read_ img ss = .ok ps)
    (hi20 : 0x14 ≤ i) (hihs : i < hdrSize img ss) (hiss : i < ss)
    (hb : b < 256) (hne : b ≠ img.getD (ss + i) 0) :
    read_ (img.set (ss + i) b) ss = .err .HeaderChecksumMismatch := by
  obtain ⟨h520, hlen, hd, hch, -⟩ := read_ok_inv img ss ps hok
  obtain ⟨hsig, hrev, hhs92, hhs520, hcrc, -, -, -, -⟩ :=
    checkHeader_ok_inv (lba1buf img ss) ss hd hch
  have hL1 : (lba1buf img ss).length = 520 := lba1buf_length img ss h520 hlen
  have hlen' : ¬ (img.set (ss + i) b).length < ss + ss := by
    rw [List.length_set]; exact hlen
  have hbuf : lba1buf (img.set (ss + i) b) ss = (lba1buf img ss).set i b :=
    lba1buf_set img ss i b hlen hiss
  -- `hdrSize img ss` is by definition `readU32 (lba1buf img ss) 0x0c`
  have hhs : hdrSize img ss = readU32 (lba1buf img ss) 0x0c := rfl
  apply read_of_checkHeader_err _ _ _ h520 hlen'
  rw [hbuf]
  -- the four pre-checksum facts carry over to the mutated buffer
  have hsig' : ((lba1buf img ss).set i b).take 8 = efiSig := by
    rw [take_set_of_le _ _ (by omega)]; exact hsig
  have hrev' : (((lba1buf img ss).set i b).drop 8).take 4 = [0, 0, 1, 0] := by
    rw [List.drop_set, if_neg (by omega), take_set_of_le _ _ (by omega)]
    exact hrev
  have hread0c : readU32 ((lba1buf img ss).set i b) 0x0c =
      readU32 (lba1buf img ss) 0x0c := readU32_set b (by omega)
  have hread10 : readU32 ((lba1buf img ss).set i b) 0x10 =
      readU32 (lba1buf img ss) 0x10 := readU32_set b (by omega)
  have hz : zeroCrc ((lba1buf img ss).set i b) = (zeroCrc (lba1buf img ss)).set i b :=
    zeroCrc_set _ i b (by omega)
  apply checkHeader_mismatch
  · exact hsig'
  · exact hrev'
  · rw [hread0c]; exact hhs92
  · rw [hread0c]; exact hhs520
  · rw [hread10, hread0c, hz, hcrc]
    -- the mutated byte lies inside the checksummed prefix
    rw [List.set_take]
    apply Ne.symm
    apply crc32_ne_set
    · rw [List.length_take, zeroCrc_length, hL1]
      rw [hhs] at hihs
      omega
    · intro v hv
      exact zeroCrc_bytes _ (lba1buf_bytes img ss hbytes) v (List.mem_of_mem_take hv)
    · exact hb
    · rw [List.getD_eq_getElem?_getD, List.getElem?_take, if_pos (by
        rw [hhs] at hihs; exact hihs), ← List.getD_eq_getElem?_getD,
        zeroCrc_getD _ _ (by omega), lba1buf_getD img ss i hlen hiss]
      exact hne

end gpt


namespace gpt

theorem crc32_chunks4 (l c1 c2 c3 c4 : List Nat) (v1 v2 v3 v4 : Nat)
    (hl : l = c1 ++ (c2 ++ (c3 ++ c4)))
    (h1 : List.foldl crcStep 0xFFFFFFFF c1 = v1)
    (h2 : List.foldl crcStep v1 c2 = v2)
    (h3 : List.foldl crcStep v2 c3 = v3)
    (h4 : List.foldl crcStep v3 c4 = v4) :
    crc32 l = v4 ^^^ 0xFFFFFFFF := by
  subst hl
  unfold crc32
  rw [List.foldl_append, List.foldl_append, List.foldl_append, h1, h2, h3, h4]

theorem checkHeader_ok_intro (lba1 : List Nat) (ss : Nat)
    (c1 : lba1.take 8 = efiSig) (c2 : (lba1.drop 8).take 4 = [0, 0, 1, 0])
    (c3 : ¬ readU32 lba1 0x0c < 92) (c4 : ¬ 520 < readU32 lba1 0x0c)
    (c5 : readU32 lba1 0x10 = crc32 ((zeroCrc lba1).take (readU32 lba1 0x0c)))
    (c6 : readU32 (zeroCrc lba1) 0x14 = 0)
    (c7 : readU64 (zeroCrc lba1) 0x18 = 1)
    (c8 : ¬ readU64 (zeroCrc lba1) 0x28 > readU64 (zeroCrc lba1) 0x30)
    (c9 : ss ≠ 0)
    (c10 : ¬ readU64 (zeroCrc lba1) 0x30 > (2 ^ 64 - 1) / ss)
    (c11 : readU64 (zeroCrc lba1) 0x48 = 2)
    (c12 : ¬ 2 ^ 16 ≤ readU32 (zeroCrc lba1) 0x50)
    (c13 : ¬ 2 ^ 16 ≤ readU32 (zeroCrc lba1) 0x54)
    (c14 : ¬ readU32 (zeroCrc lba1) 0x54 < 128)
    (c15 : ¬ readU64 (zeroCrc lba1) 0x28 <
      2 + readU32 (zeroCrc lba1) 0x54 * readU32 (zeroCrc lba1) 0x50 / ss)
    (c16 : allZero ((zeroCrc lba1).drop (readU32 lba1 0x0c)) = true) :
    checkHeader lba1 ss = .ok ⟨readU32 lba1 0x0c, readU64 (zeroCrc lba1) 0x28,
      readU64 (zeroCrc lba1) 0x30, readU32 (zeroCrc lba1) 0x50,
      readU32 (zeroCrc lba1) 0x54, readU32 (zeroCrc lba1) 0x58⟩ := by
  unfold checkHeader
  rw [if_neg (by simp [c1]), if_neg (by simp [c2]), if_neg c3, if_neg c4,
    if_neg (by simp [c5]), if_neg (by simp [c6]), if_neg (by simp [c7]),
    if_neg c8, if_neg c9, if_neg c10, if_neg (by simp [c11]), if_neg c12,
    if_neg c13, if_neg c14, if_neg c15, if_neg (by simp [c16])]

theorem read_ok_intro (img : List Nat) (ss : Nat) (hd : Header)
    (res : ReadOutcome)
    (h1 : ¬ 520 < ss) (h2 : ¬ img.length < ss + ss)
    (hh : checkHeader (lba1buf img ss) ss = .ok hd)
    (h3 : ¬ img.length < ss + ss + min (hd.entry_size * hd.entries) 24576)
    (h4 : hd.table_crc =
      crc32 ((img.drop (ss + ss)).take (min (hd.entry_size * hd.entries) 24576)))
    (h5 : gptEntries ((img.drop (ss + ss)).take (min (hd.entry_size * hd.entries) 24576))
        hd.entry_size hd.first_usable_lba hd.last_usable_lba ss
        (List.range hd.entries) [] = res) :
    read_ img ss = res := by
  unfold read_
  rw [if_neg h1, if_neg h2]
  simp only [hh]
  rw [if_neg h3, if_neg (by simp [h4]), h5]

/-- A minimal valid GPT image for sector size 92: LBA 0 all zero, the header
at offset 92 declares header size 92, current LBA 1, usable window [2,2],
entry array at LBA 2 with 0 entries of size 128, table CRC 0 (the CRC-32 of
no bytes) and a correct header CRC. -/
def c4img : List Nat :=
  List.replicate 92 0 ++ [69, 70, 73, 32, 80, 65, 82, 84, 0, 0, 1, 0, 92, 0, 0, 0, 210, 181, 67, 77, 0, 0, 0, 0, 1, 0, 0, 0, 0, 0, 0, 0, 0, 0, 0, 0, 0, 0, 0, 0, 2, 0, 0, 0, 0, 0, 0, 0, 2, 0, 0, 0, 0, 0, 0, 0, 0, 0, 0, 0, 0, 0, 0, 0, 0, 0, 0, 0, 0, 0, 0, 0, 2, 0, 0, 0, 0, 0, 0, 0, 0, 0, 0, 0, 128, 0, 0, 0, 0, 0, 0, 0]

/-- The zeroed 92-byte header of `c4img`, as checksummed by the decoder. -/
def c4hdrZ : List Nat := [69, 70, 73, 32, 80, 65, 82, 84, 0, 0, 1, 0, 92, 0, 0, 0, 0, 0, 0, 0, 0, 0, 0, 0, 1, 0, 0, 0, 0, 0, 0, 0, 0, 0, 0, 0, 0, 0, 0, 0, 2, 0, 0, 0, 0, 0, 0, 0, 2, 0, 0, 0, 0, 0, 0, 0, 0, 0, 0, 0, 0, 0, 0, 0, 0, 0, 0, 0, 0, 0, 0, 0, 2, 0, 0, 0, 0, 0, 0, 0, 0, 0, 0, 0, 128, 0, 0, 0, 0, 0, 0, 0]

theorem crc32_c4hdrZ_val : crc32 c4hdrZ = 1296283090 := by
  apply crc32_chunks4 _ [69, 70, 73, 32, 80, 65, 82, 84, 0, 0, 1, 0, 92, 0, 0, 0, 0, 0, 0, 0, 0, 0, 0]
    [0, 1, 0, 0, 0, 0, 0, 0, 0, 0, 0, 0, 0, 0, 0, 0, 0, 2, 0, 0, 0, 0, 0]
    [0, 0, 2, 0, 0, 0, 0, 0, 0, 0, 0, 0, 0, 0, 0, 0, 0, 0, 0, 0, 0, 0, 0]
    [0, 0, 0, 2, 0, 0, 0, 0, 0, 0, 0, 0, 0, 0, 0, 128, 0, 0, 0, 0, 0, 0, 0]
    3654551793 2888157301 4253422311 2998684205
  · decide
  · decide
  · decide
  · decide
  · decide

theorem c4img_checkHeader :
    checkHeader (lba1buf c4img 92) 92 = .ok ⟨92, 2, 2, 0, 128, 0⟩ := by
  have h0c : readU32 (lba1buf c4img 92) 0x0c = 92 := by decide
  have hz : (zeroCrc (lba1buf c4img 92)).take 92 = c4hdrZ := by decide
  have hca := checkHeader_ok_intro (lba1buf c4img 92) 92 (by decide) (by decide)
    (by decide) (by decide)
    (by rw [h0c, hz, crc32_c4hdrZ_val]; decide)
    (by decide) (by decide) (by decide) (by decide) (by decide) (by decide)
    (by decide) (by decide) (by decide) (by decide) (by decide)
  rw [hca]
  decide

theorem c4img_ok : read_ c4img 92 = .ok [] := by
  apply read_ok_intro c4img 92 ⟨92, 2, 2, 0, 128, 0⟩ (.ok []) (by decide)
    (by decide) c4img_checkHeader (by decide) (by decide) (by decide)

/-- Claim C4 counterexample: `c4img` is accepted by the decoder, and
mutating a single byte of its header outside the CRC field — byte 0 of the
header, at image offset 92, within the first `header_size = 92` bytes —
produces `BadEFISignature`, not `HeaderChecksumMismatch`: the fields at
offsets 0x00..0x10 are validated before the checksum. -/
theorem gpt_header_mutation_counterexample :
    read_ c4img 92 = .ok [] ∧
    read_ (c4img.set 92 0) 92 = .err .BadEFISignature ∧
    GptError.BadEFISignature ≠ GptError.HeaderChecksumMismatch := by
  refine ⟨c4img_ok, ?_, by decide⟩
  apply read_of_checkHeader_err _ _ _ (by decide) (by
    rw [List.length_set]
    decide)
  rw [lba1buf_set c4img 92 0 0 (by decide) (by norm_num)]
  unfold checkHeader
  rw [if_pos (by decide)]

set_option maxRecDepth 4000 in
/-- Witness for `gpt_header_mutation_mismatch`: mutating the first reserved
byte (header offset 0x14) of `c4img` from 0 to 1 produces
`HeaderChecksumMismatch`. -/
theorem gpt_header_mutation_mismatch_witness :
    read_ (c4img.set (92 + 0x14) 1) 92 = .err .HeaderChecksumMismatch :=
  gpt_header_mutation_mismatch c4img 92 [] 0x14 1 (by decide) c4img_ok
    (by norm_num) (by decide) (by norm_num) (by norm_num) (by decide)

end gpt

section ExtentBounds

theorem getD_lt_256 {l : List Nat} (hb : ∀ v ∈ l, v < 256) (i : Nat) :
    l.getD i 0 < 256 := by
  rcases Nat.lt_or_ge i l.length with h | h
  · rw [List.getD_eq_getElem l 0 h]
    exact hb _ (List.getElem_mem h)
  · rw [List.getD_eq_getElem?_getD, List.getElem?_eq_none (by omega)]
    norm_num

theorem readU16_lt {l : List Nat} (hb : ∀ v ∈ l, v < 256) (off : Nat) :
    readU16 l off < 2 ^ 16 := by
  unfold readU16
  have h1 := getD_lt_256 hb off
  have h2 := getD_lt_256 hb (off + 1)
  omega

theorem readU32_lt {l : List Nat} (hb : ∀ v ∈ l, v < 256) (off : Nat) :
    readU32 l off < 2 ^ 32 := by
  unfold readU32
  have h1 := readU16_lt hb off
  have h2 := readU16_lt hb (off + 2)
  omega

theorem take_drop_bytes {l : List Nat} (hb : ∀ v ∈ l, v < 256) (n m : Nat) :
    ∀ v ∈ (l.drop n).take m, v < 256 :=
  fun v hv => hb v (List.mem_of_mem_drop (List.mem_of_mem_take hv))

end ExtentBounds

namespace mbr

theorem parseEntries_extent (sector : List Nat) (ss : Nat)
    (hb : ∀ v ∈ sector, v < 256) (hss : ss < 2 ^ 16) :
    ∀ (ids : List Nat) (acc ps : List Partition),
      parseEntries sector ss ids acc = .ok ps →
      ∀ p ∈ ps, p ∈ acc ∨ p.first_byte + p.len < 2 ^ 64 := by
  intro ids
  induction ids with
  | nil =>
    intro acc ps h p hp
    simp only [parseEntries] at h
    exact Or.inl (by rw [Except.ok.inj h]; exact hp)
  | cons j rest ih =>
    intro acc ps h p hp
    simp only [parseEntries] at h
    by_cases hstat : ((sector.drop (446 + j * 16)).take 16).getD 0 0 = 0x00 ∨
        ((sector.drop (446 + j * 16)).take 16).getD 0 0 = 0x80
    · rw [if_pos hstat] at h
      by_cases hty : ((sector.drop (446 + j * 16)).take 16).getD 4 0 = 0
      · rw [if_pos hty] at h
        exact ih acc ps h p hp
      · rw [if_neg hty] at h
        rcases ih _ ps h p hp with hmem | hlt
        · rcases List.mem_append.mp hmem with hmem | hmem
          · exact Or.inl hmem
          · right
            rw [List.mem_singleton] at hmem
            subst hmem
            have hbp := take_drop_bytes hb (446 + j * 16) 16
            have h8 := readU32_lt hbp 8
            have h12 := readU32_lt hbp 12
            have m8 : readU32 ((sector.drop (446 + j * 16)).take 16) 8 * ss ≤
                (2 ^ 32 - 1) * (2 ^ 16 - 1) :=
              Nat.mul_le_mul (by omega) (by omega)
            have m12 : readU32 ((sector.drop (446 + j * 16)).take 16) 12 * ss ≤
                (2 ^ 32 - 1) * (2 ^ 16 - 1) :=
              Nat.mul_le_mul (by omega) (by omega)
            simp only
            omega
        · exact Or.inr hlt
    · rw [if_neg hstat] at h
      exact Except.noConfusion h

end mbr

namespace gpt

theorem gptEntries_ok_extent (table : List Nat) (es fu lu ss : Nat)
    (hss : ss ≠ 0) (hfu2 : 2 ≤ fu) (hlu : lu ≤ (2 ^ 64 - 1) / ss) :
    ∀ (ids : List Nat) (acc ps : List Partition),
      gptEntries table es fu lu ss ids acc = .ok ps →
      ∀ p ∈ ps, p ∈ acc ∨ p.first_byte + p.len < 2 ^ 64 + ss := by
  intro ids
  induction ids with
  | nil =>
    intro acc ps h p hp
    simp only [gptEntries] at h
    exact Or.inl (by rw [ReadOutcome.ok.inj h]; exact hp)
  | cons id rest ih =>
    intro acc ps h p hp
    simp only [gptEntries] at h
    by_cases h1 : table.length < (id + 1) * es
    · rw [if_pos h1] at h
      exact ReadOutcome.noConfusion h
    rw [if_neg h1] at h
    by_cases h2 : allZero (((table.drop (id * es)).take es).take 16) = true
    · rw [if_pos h2] at h
      exact ih acc ps h p hp
    rw [if_neg h2] at h
    by_cases h3 : readU64 ((table.drop (id * es)).take es) 0x20 >
        readU64 ((table.drop (id * es)).take es) 0x28 ∨
      readU64 ((table.drop (id * es)).take es) 0x20 < fu ∨
      readU64 ((table.drop (id * es)).take es) 0x28 > lu
    · rw [if_pos h3] at h
      exact ReadOutcome.noConfusion h
    rw [if_neg h3] at h
    push_neg at h3
    obtain ⟨hfl, hffu, hllu⟩ := h3
    rcases ih _ ps h p hp with hmem | hlt
    · rcases List.mem_append.mp hmem with hmem | hmem
      · exact Or.inl hmem
      · right
        rw [List.mem_singleton] at hmem
        subst hmem
        have hM : lu * ss ≤ 2 ^ 64 - 1 :=
          le_trans (Nat.mul_le_mul_right ss hlu) (Nat.div_mul_le_self _ _)
        have hfle : readU64 ((table.drop (id * es)).take es) 0x20 * ss ≤ lu * ss :=
          Nat.mul_le_mul_right ss (le_trans hfl hllu)
        have hlen1 : (readU64 ((table.drop (id * es)).take es) 0x28 -
            readU64 ((table.drop (id * es)).take es) 0x20 + 1) * ss ≤ (lu - 1) * ss :=
          Nat.mul_le_mul_right ss (by omega)
        have hlum : (lu - 1) * ss = lu * ss - ss := by
          rw [Nat.sub_mul, one_mul]
        have hsum : readU64 ((table.drop (id * es)).take es) 0x20 * ss +
            (readU64 ((table.drop (id * es)).take es) 0x28 -
              readU64 ((table.drop (id * es)).take es) 0x20 + 1) * ss =
            (readU64 ((table.drop (id * es)).take es) 0x28 + 1) * ss := by
          rw [← Nat.add_mul]
          congr 1
          omega
        have hbig : (readU64 ((table.drop (id * es)).take es) 0x28 + 1) * ss ≤
            (lu + 1) * ss :=
          Nat.mul_le_mul_right ss (by omega)
        have hlup : (lu + 1) * ss = lu * ss + ss := by
          rw [Nat.add_mul, one_mul]
        simp only
        rw [Nat.mod_eq_of_lt (by omega), Nat.mod_eq_of_lt (by omega), hsum]
        omega
    · exact Or.inr hlt

end gpt

/-- Claim C6 (amended): a partition record of the MBR decoder always has
`first_byte + len < 2 ^ 64`; a record of the GPT decoder satisfies the
weaker `first_byte + len < 2 ^ 64 + sector_size` — the sum equals
`(last_lba + 1) * sector_size` and the header guard only enforces
`last_usable_lba ≤ (2 ^ 64 - 1) / sector_size`, so at the boundary
`last_lba = (2 ^ 64 - 1) / sector_size` the sum can reach or slightly
exceed `2 ^ 64` (by less than one sector). -/
theorem extent_sum_bound :
    (∀ (sector : List Nat) (ss : Nat) (ps : List mbr.Partition),
      (∀ v ∈ sector, v < 256) → ss < 2 ^ 16 →
      mbr.parse_partition_table sector ss = .ok ps →
      ∀ p ∈ ps, p.first_byte + p.len < 2 ^ 64) ∧
    (∀ (img : List Nat) (ss : Nat) (ps : List gpt.Partition),
      gpt.read_ img ss = .ok ps →
      ∀ p ∈ ps, p.first_byte + p.len < 2 ^ 64 + ss) := by
  constructor
  · intro sector ss ps hb hss h p hp
    rcases mbr.parseEntries_extent sector ss hb hss (List.range 4) [] ps h p hp with
      hmem | hlt
    · simp at hmem
    · exact hlt
  · intro img ss ps h p hp
    obtain ⟨h520, hlen, hd, hch, hent⟩ := gpt.read_ok_inv img ss ps h
    obtain ⟨-, -, -, -, -, hss0, hlu, hfu, hhd⟩ := gpt.checkHeader_ok_inv _ _ _ hch
    rw [hhd] at hent
    dsimp only at hent
    have hfu2 : 2 ≤ readU64 (gpt.zeroCrc (gpt.lba1buf img ss)) 0x28 :=
      le_trans (Nat.le_add_right 2 _) hfu
    rcases gpt.gptEntries_ok_extent _ _ _ _ _ hss0 hfu2 hlu _ _ _ hent p hp with
      hmem | hlt
    · simp at hmem
    · exact hlt

namespace gpt

/-- The single 128-byte partition entry of `c6img`. -/
def c6entry : List Nat := [1, 0, 0, 0, 0, 0, 0, 0, 0, 0, 0, 0, 0, 0, 0, 0, 0, 0, 0, 0, 0, 0, 0, 0, 0, 0, 0, 0, 0, 0, 0, 0, 3, 0, 0, 0, 0, 0, 0, 0, 133, 44, 100, 33, 11, 89, 200, 2, 0, 0, 0, 0, 0, 0, 0, 0, 0, 0, 0, 0, 0, 0, 0, 0, 0, 0, 0, 0, 0, 0, 0, 0, 0, 0, 0, 0, 0, 0, 0, 0, 0, 0, 0, 0, 0, 0, 0, 0, 0, 0, 0, 0, 0, 0, 0, 0, 0, 0, 0, 0, 0, 0, 0, 0, 0, 0, 0, 0, 0, 0, 0, 0, 0, 0, 0, 0, 0, 0, 0, 0, 0, 0, 0, 0, 0, 0, 0, 0]

/-- A GPT image (sector size 92) whose single entry spans LBAs 3 to
⌊(2^64−1)/92⌋ = 200508087757712517, the exact boundary the
`EverythingMustBeBelowSixtyFourToThePowerOfTwo` guard still accepts. -/
def c6img : List Nat :=
  List.replicate 92 0 ++ [69, 70, 73, 32, 80, 65, 82, 84, 0, 0, 1, 0, 92, 0, 0, 0, 52, 73, 26, 111, 0, 0, 0, 0, 1, 0, 0, 0, 0, 0, 0, 0, 0, 0, 0, 0, 0, 0, 0, 0, 3, 0, 0, 0, 0, 0, 0, 0, 133, 44, 100, 33, 11, 89, 200, 2, 0, 0, 0, 0, 0, 0, 0, 0, 0, 0, 0, 0, 0, 0, 0, 0, 2, 0, 0, 0, 0, 0, 0, 0, 1, 0, 0, 0, 128, 0, 0, 0, 222, 172, 140, 207] ++ c6entry

/-- The zeroed 92-byte header of `c6img`. -/
def c6hdrZ : List Nat := [69, 70, 73, 32, 80, 65, 82, 84, 0, 0, 1, 0, 92, 0, 0, 0, 0, 0, 0, 0, 0, 0, 0, 0, 1, 0, 0, 0, 0, 0, 0, 0, 0, 0, 0, 0, 0, 0, 0, 0, 3, 0, 0, 0, 0, 0, 0, 0, 133, 44, 100, 33, 11, 89, 200, 2, 0, 0, 0, 0, 0, 0, 0, 0, 0, 0, 0, 0, 0, 0, 0, 0, 2, 0, 0, 0, 0, 0, 0, 0, 1, 0, 0, 0, 128, 0, 0, 0, 222, 172, 140, 207]

theorem crc32_c6hdrZ_val : crc32 c6hdrZ = 1863993652 := by
  apply crc32_chunks4 _ [69, 70, 73, 32, 80, 65, 82, 84, 0, 0, 1, 0, 92, 0, 0, 0, 0, 0, 0, 0, 0, 0, 0]
    [0, 1, 0, 0, 0, 0, 0, 0, 0, 0, 0, 0, 0, 0, 0, 0, 0, 3, 0, 0, 0, 0, 0]
    [0, 0, 133, 44, 100, 33, 11, 89, 200, 2, 0, 0, 0, 0, 0, 0, 0, 0, 0, 0, 0, 0, 0]
    [0, 0, 0, 2, 0, 0, 0, 0, 0, 0, 0, 1, 0, 0, 0, 128, 0, 0, 0, 222, 172, 140, 207]
    3654551793 1735990224 920417691 2430973643
  · decide
  · decide
  · decide
  · decide
  · decide

theorem crc32_c6entry_val : crc32 c6entry = 3482103006 := by
  apply crc32_chunks4 _ [1, 0, 0, 0, 0, 0, 0, 0, 0, 0, 0, 0, 0, 0, 0, 0, 0, 0, 0, 0, 0, 0, 0, 0, 0, 0, 0, 0, 0, 0, 0, 0]
    [3, 0, 0, 0, 0, 0, 0, 0, 133, 44, 100, 33, 11, 89, 200, 2, 0, 0, 0, 0, 0, 0, 0, 0, 0, 0, 0, 0, 0, 0, 0, 0]
    [0, 0, 0, 0, 0, 0, 0, 0, 0, 0, 0, 0, 0, 0, 0, 0, 0, 0, 0, 0, 0, 0, 0, 0, 0, 0, 0, 0, 0, 0, 0, 0]
    [0, 0, 0, 0, 0, 0, 0, 0, 0, 0, 0, 0, 0, 0, 0, 0, 0, 0, 0, 0, 0, 0, 0, 0, 0, 0, 0, 0, 0, 0, 0, 0]
    389001208 407938099 2364471241 812864289
  · decide
  · decide
  · decide
  · decide
  · decide

theorem c6img_checkHeader :
    checkHeader (lba1buf c6img 92) 92 =
      .ok ⟨92, 3, 200508087757712517, 1, 128, 3482103006⟩ := by
  have h0c : readU32 (lba1buf c6img 92) 0x0c = 92 := by decide
  have hz : (zeroCrc (lba1buf c6img 92)).take 92 = c6hdrZ := by decide
  have hca := checkHeader_ok_intro (lba1buf c6img 92) 92 (by decide) (by decide)
    (by decide) (by decide)
    (by rw [h0c, hz, crc32_c6hdrZ_val]; decide)
    (by decide) (by decide) (by decide) (by decide) (by decide) (by decide)
    (by decide) (by decide) (by decide) (by decide) (by decide)
  rw [hca]
  decide

theorem c6img_ok :
    read_ c6img 92 = .ok [⟨0, 276, 18446744073709551380,
      .GPT (1 :: List.replicate 15 0) (List.replicate 16 0)
        (List.replicate 8 0) []⟩] := by
  apply read_ok_intro c6img 92 ⟨92, 3, 200508087757712517, 1, 128, 3482103006⟩ _ (by decide)
    (by decide) c6img_checkHeader (by decide) ?_ (by decide)
  have ht : ((c6img.drop (92 + 92)).take (min (128 * 1) 24576)) = c6entry := by decide
  rw [ht, crc32_c6entry_val]

/-- Claim C6 counterexample: the decoder accepts `c6img` and produces a
partition record with `first_byte = 276` and `len = 18446744073709551380`,
whose sum is `(⌊(2^64−1)/92⌋ + 1) * 92 = 2^64 + 40 ≥ 2^64`: the documented
invariant `first_byte + len` fits in a u64 fails at the boundary the
overflow guard admits. -/
theorem gpt_extent_overflow_counterexample :
    read_ c6img 92 = .ok [⟨0, 276, 18446744073709551380,
      .GPT (1 :: List.replicate 15 0) (List.replicate 16 0)
        (List.replicate 8 0) []⟩] ∧
    2 ^ 64 ≤ 276 + 18446744073709551380 :=
  ⟨c6img_ok, by norm_num⟩

end gpt

namespace bootsector

/-- Attributes of a partition (src/lib.rs lines 14-26).  The GPT `name` is a
Rust `String` decoded from UTF-16; it is modelled as the list of Unicode
code points. -/
inductive Attributes where
  | MBR (bootable : Bool) (type_code : Nat)
  | GPT (type_uuid : List Nat) (partition_uuid : List Nat)
        (attributes : List Nat) (name : List Nat)
deriving DecidableEq, Repr

/-- An entry in the partition table (src/lib.rs lines 28-35), fields in
source order. -/
structure Partition where
  id : Nat
  first_byte : Nat
  attributes : Attributes
  len : Nat
deriving DecidableEq, Repr

/-- src/lib.rs lines 37-42. -/
inductive ReadMBR where
  | Modern
  | Never

/-- src/lib.rs lines 44-50. -/
inductive ReadGPT where
  | RevisionOne
  | Never

/-- src/lib.rs lines 52-60. -/
inductive SectorSize where
  | GuessOrAssume
  | Known (size : Nat)

/-- src/lib.rs lines 62-66. -/
structure Options where
  mbr : ReadMBR
  gpt : ReadGPT
  sector_size : SectorSize

/-- Errors of src/lib.rs, which reports them as `io::Error`s: `notFound` is
`io::ErrorKind::NotFound`; every other variant is `InvalidData` with the
message of the corresponding `Error::new(InvalidData, ...)` call site
(`invalidName` keeps the entry id of "partition {} has an invalid name");
`invalidStatusCode` carries the entry id and status byte of the MBR
parser's "invalid status code in partition" message. -/
/- `entryCountTooBig` and `entrySizeOutOfRange` stand for the source's
"entry count is implausible" and "entry size is implausible" messages. -/
inductive LibError where
  | notFound
  | badEFISignature
  | unsupportedRevision
  | headerTooShort
  | headerChecksumMismatch
  | unsupportedDataInReservedField
  | currentLbaMustBeOne
  | backwardLbas
  | aboveTwoPow64
  | startingLbaMustBeTwo
  | entryCountTooBig
  | entrySizeOutOfRange
  | firstUsableLbaTooLow
  | reservedTailNotEmpty
  | tableCrcInvalid
  | partitionEntryOutOfRange
  | invalidName (id : Nat)
  | invalidStatusCode (entry_id : Nat) (status : Nat)
deriving DecidableEq, Repr

/-- Outcome of src/lib.rs functions over a cursor on a byte list: `.err e`
is `Err(io::Error)` as classified by `LibError`; `.ioErr` an error of the
underlying reader (short `read_exact`); `.panic` a Rust panic (slice index
out of range, division by zero). -/
inductive LibOutcome where
  | ok (partitions : List Partition)
  | err (e : LibError)
  | ioErr
  | panic
deriving DecidableEq, Repr

/-- Outcome of the header-validation stage of `read_gpt`. -/
inductive LibHeaderOutcome where
  | ok (hd : gpt.Header)
  | err (e : LibError)
  | panic
deriving DecidableEq, Repr

/-- Models `String::from_utf16` (Rust std, an external dependency): decode
UTF-16 code units into Unicode code points, pairing a high surrogate
(0xD800..0xDBFF) with a following low surrogate (0xDC00..0xDFFF) and
failing (`none`) on any lone surrogate. -/
def from_utf16 : List Nat → Option (List Nat)
  | [] => some []
  | u :: rest =>
    if u < 0xD800 ∨ 0xE000 ≤ u then
      match from_utf16 rest with
      | some r => some (u :: r)
      | none => none
    else if u < 0xDC00 then
      match rest with
      | v :: rest2 =>
        if 0xDC00 ≤ v ∧ v < 0xE000 then
          match from_utf16 rest2 with
          | some r => some ((0x10000 + (u - 0xD800) * 0x400 + (v - 0xDC00)) :: r)
          | none => none
        else none
      | [] => none
    else none

/-- Header validation of `read_gpt` (src/lib.rs lines 138-214) on the
`sector_size`-byte `lba1` buffer, in source order.  Unlike the no_std
version, `lba1` here is `vec![0u8; sector_size]`, so every slice index is
bounded by `sector_size` and an out-of-range index is a Rust panic — hence
the interleaved length guards.  `u64::MAX / sector_size` divides by zero
(panics) when `sector_size = 0`. -/
def checkHeaderLib (lba1 : List Nat) (ss : Nat) : LibHeaderOutcome :=
  if lba1.length < 8 then .panic
  else if lba1.take 8 ≠ gpt.efiSig then .err .badEFISignature
  else if lba1.length < 12 then .panic
  else if (lba1.drop 8).take 4 ≠ [0, 0, 1, 0] then .err .unsupportedRevision
  else if lba1.length < 16 then .panic
  else if readU32 lba1 0x0c < 92 then .err .headerTooShort
  else if lba1.length < 20 then .panic
  else if lba1.length < readU32 lba1 0x0c then .panic
  else if readU32 lba1 0x10 ≠ crc32 ((gpt.zeroCrc lba1).take (readU32 lba1 0x0c)) then
    .err .headerChecksumMismatch
  else if lba1.length < 0x18 then .panic
  else if readU32 (gpt.zeroCrc lba1) 0x14 ≠ 0 then .err .unsupportedDataInReservedField
  else if lba1.length < 0x20 then .panic
  else if readU64 (gpt.zeroCrc lba1) 0x18 ≠ 1 then .err .currentLbaMustBeOne
  else if lba1.length < 0x38 then .panic
  else if readU64 (gpt.zeroCrc lba1) 0x28 > readU64 (gpt.zeroCrc lba1) 0x30 then
    .err .backwardLbas
  else if ss = 0 then .panic
  else if readU64 (gpt.zeroCrc lba1) 0x30 > (2 ^ 64 - 1) / ss then .err .aboveTwoPow64
  else if lba1.length < 0x50 then .panic
  else if readU64 (gpt.zeroCrc lba1) 0x48 ≠ 2 then .err .startingLbaMustBeTwo
  else if lba1.length < 0x54 then .panic
  else if 65536 ≤ readU32 (gpt.zeroCrc lba1) 0x50 then .err .entryCountTooBig
  else if lba1.length < 0x58 then .panic
  else if readU32 (gpt.zeroCrc lba1) 0x54 < 128 ∨
      65536 ≤ readU32 (gpt.zeroCrc lba1) 0x54 then .err .entrySizeOutOfRange
  else if readU64 (gpt.zeroCrc lba1) 0x28 <
      2 + readU32 (gpt.zeroCrc lba1) 0x54 * readU32 (gpt.zeroCrc lba1) 0x50 / ss then
    .err .firstUsableLbaTooLow
  else if lba1.length < 0x5c then .panic
  else if allZero ((gpt.zeroCrc lba1).drop (readU32 lba1 0x0c)) = false then
    .err .reservedTailNotEmpty
  else
    .ok ⟨readU32 lba1 0x0c, readU64 (gpt.zeroCrc lba1) 0x28,
      readU64 (gpt.zeroCrc lba1) 0x30, readU32 (gpt.zeroCrc lba1) 0x50,
      readU32 (gpt.zeroCrc lba1) 0x54, readU32 (gpt.zeroCrc lba1) 0x58⟩

/-- Per-entry name decode of src/lib.rs lines 243-246: 32 little-endian u16
code units read at byte offsets 0, 1, 2, ..., 31 of the name field
(overlapping reads — `read_u16(&name_data[idx..])`, not `[2 * idx..]`),
truncated at the first zero unit. -/
def name_le (name_data : List Nat) : List Nat :=
  ((List.range 32).map (fun idx => readU16 name_data idx)).takeWhile
    (fun val => val != 0)

/-- Entry loop of `read_gpt` (src/lib.rs lines 224-266): the table holds
exactly `entry_size * entries` bytes, so entry slices are always in range.
An all-zero type UUID skips the slot; LBA bounds are checked against the
usable window; the name field is decoded by `name_le` and then through
`String::from_utf16`, whose failure reports the offending entry id. -/
def gptEntriesLib (table : List Nat) (es fu lu ss : Nat) :
    List Nat → List Partition → LibOutcome
  | [], acc => .ok acc
  | id :: rest, acc =>
    let entry := (table.drop (id * es)).take es
    if allZero (entry.take 16) then gptEntriesLib table es fu lu ss rest acc
    else
      let first_lba := readU64 entry 0x20
      let last_lba := readU64 entry 0x28
      if first_lba > last_lba ∨ first_lba < fu ∨ last_lba > lu then
        .err .partitionEntryOutOfRange
      else
        match from_utf16 (name_le ((entry.drop 0x38).take 72)) with
        | none => .err (.invalidName id)
        | some name =>
          gptEntriesLib table es fu lu ss rest (acc ++
            [⟨id, first_lba * ss % 2 ^ 64,
              .GPT (entry.take 16) ((entry.drop 0x10).take 16)
                ((entry.drop 0x30).take 8) name,
              (last_lba - first_lba + 1) * ss % 2 ^ 64⟩])

/-- Embedding of `read_gpt` (src/lib.rs lines 130-269) over a cursor on the
byte list `img`: seek to `sector_size`, read the `sector_size`-byte header
buffer, validate it (`checkHeaderLib`), read the `entry_size * entries`-byte
entry table, check its CRC-32, parse the entries. -/
def read_gpt (img : List Nat) (ss : Nat) : LibOutcome :=
  if img.length < ss + ss then .ioErr
  else
    match checkHeaderLib ((img.drop ss).take ss) ss with
    | .panic => .panic
    | .err e => .err e
    | .ok hd =>
      if img.length < ss + ss + hd.entry_size * hd.entries then .ioErr
      else if hd.table_crc ≠
          crc32 ((img.drop (ss + ss)).take (hd.entry_size * hd.entries)) then
        .err .tableCrcInvalid
      else
        gptEntriesLib ((img.drop (ss + ss)).take (hd.entry_size * hd.entries))
          hd.entry_size hd.first_usable_lba hd.last_usable_lba ss
          (List.range hd.entries) []

/-- Embedding of `protective` (src/lib.rs lines 78-95): MBR attributes with
type code 0xEE and not bootable, id 0, `first_byte ≤ 16 KiB`, and
`len ≥ 128 * 128 + first_byte` (the minimum GPT length for the sector-size
guess). -/
def protective (partition : Partition) : Bool :=
  match partition.attributes with
  | .MBR false type_code =>
    type_code == 0xee && partition.id == 0 &&
      decide (partition.first_byte ≤ 16 * 1024) &&
      decide (128 * 128 + partition.first_byte ≤ partition.len)
  | _ => false

/-- Modelled from the spec: `open` (src/lib.rs line 109) calls a
one-argument `mbr::parse_partition_table(&disc_header)` producing
`Attributes`-carrying partitions; that revision of the `mbr` module is not
among the repository's files (src/mbr.rs holds a two-argument version with
an incompatible `Partition` type).  Spec §4.1: for each of the 4 entries at
offset 446 + 16 * entry_id, status byte 0x00 → not bootable, 0x80 →
bootable, anything else → invalid-status error; type code 0 → the slot is
skipped; `first_byte = first_lba * 512`, `len = sector_count * 512`. -/
def parseEntriesSpec (sector : List Nat) :
    List Nat → List Partition → Except LibError (List Partition)
  | [], acc => .ok acc
  | entry_id :: rest, acc =>
    let partition := (sector.drop (446 + entry_id * 16)).take 16
    let status := partition.getD 0 0
    if status = 0x00 ∨ status = 0x80 then
      let type_code := partition.getD 4 0
      if type_code = 0 then parseEntriesSpec sector rest acc
      else
        parseEntriesSpec sector rest (acc ++
          [⟨entry_id, readU32 partition 8 * 512,
            .MBR (status == 0x80) type_code, readU32 partition 12 * 512⟩])
    else
      .error (.invalidStatusCode entry_id status)

/-- Modelled from the spec: the one-argument MBR parse used by `open`
(see `parseEntriesSpec`). -/
def parse_partition_table (sector : List Nat) : Except LibError (List Partition) :=
  parseEntriesSpec sector (List.range 4) []

/-- Embedding of `open` (src/lib.rs lines 97-128; `open` is a Lean keyword,
hence the trailing underscore): seek to 0, read the 512-byte boot sector,
require the 0x55AA signature at offsets 510-511 (else `NotFound`), parse
the MBR table.  If the table is exactly one entry passing `protective`,
proceed per `options.gpt` (`Never` returns the raw table, `RevisionOne`
reads the GPT with the sector size from `options.sector_size`, guessing the
protective partition's `first_byte`); otherwise return the MBR table.
`options.mbr` is never consulted. -/
def open_ (img : List Nat) (options : Options) : LibOutcome :=
  if img.length < 512 then .ioErr
  else if (img.take 512).getD 510 0 ≠ 0x55 ∨ (img.take 512).getD 511 0 ≠ 0xAA then
    .err .notFound
  else
    match parse_partition_table (img.take 512) with
    | .error e => .err e
    | .ok header_table =>
      match header_table with
      | [p] =>
        if protective p then
          match options.gpt with
          | .Never => .ok [p]
          | .RevisionOne =>
            read_gpt img (match options.sector_size with
              | .Known size => size
              | .GuessOrAssume => p.first_byte)
        else .ok [p]
      | t => .ok t

end bootsector

namespace bootsector

/-- Boot sector with one plain (non-protective) entry: slot 0 has status
0x00, type code 0x83, first LBA 2048 and sector count 2048; the 0x55AA
signature is present. -/
def c2img : List Nat :=
  List.replicate 446 0 ++
    [0x00, 0, 0, 0, 0x83, 0, 0, 0, 0, 8, 0, 0, 0, 8, 0, 0] ++
    List.replicate 48 0 ++ [0x55, 0xAA]

/-- Claim C2: `open` never consults `options.mbr` (src/lib.rs lines
112-127), so with a plain MBR table it returns `Ok(table)` even under
`ReadMBR::Never`, which per the `ReadMBR::Never` documentation ("Require
there to be a GPT partition present") and the repository's own test
(tests/manual.rs `require_gpt`) should be a not-found error.  Both options
produce the identical successful result. -/
theorem open_ignores_read_mbr_never :
    open_ c2img ⟨.Never, .RevisionOne, .GuessOrAssume⟩ =
      .ok [⟨0, 2048 * 512, .MBR false 0x83, 2048 * 512⟩] ∧
    open_ c2img ⟨.Modern, .RevisionOne, .GuessOrAssume⟩ =
      .ok [⟨0, 2048 * 512, .MBR false 0x83, 2048 * 512⟩] :=
  ⟨by decide, by decide⟩

theorem checkHeaderLib_ok_intro (lba1 : List Nat) (ss : Nat)
    (g1 : ¬ lba1.length < 8)
    (c1 : lba1.take 8 = gpt.efiSig)
    (g2 : ¬ lba1.length < 12)
    (c2 : (lba1.drop 8).take 4 = [0, 0, 1, 0])
    (g3 : ¬ lba1.length < 16)
    (c3 : ¬ readU32 lba1 0x0c < 92)
    (g4 : ¬ lba1.length < 20)
    (g5 : ¬ lba1.length < readU32 lba1 0x0c)
    (c5 : readU32 lba1 0x10 = crc32 ((gpt.zeroCrc lba1).take (readU32 lba1 0x0c)))
    (g6 : ¬ lba1.length < 0x18)
    (c6 : readU32 (gpt.zeroCrc lba1) 0x14 = 0)
    (g7 : ¬ lba1.length < 0x20)
    (c7 : readU64 (gpt.zeroCrc lba1) 0x18 = 1)
    (g8 : ¬ lba1.length < 0x38)
    (c8 : ¬ readU64 (gpt.zeroCrc lba1) 0x28 > readU64 (gpt.zeroCrc lba1) 0x30)
    (c9 : ss ≠ 0)
    (c10 : ¬ readU64 (gpt.zeroCrc lba1) 0x30 > (2 ^ 64 - 1) / ss)
    (g9 : ¬ lba1.length < 0x50)
    (c11 : readU64 (gpt.zeroCrc lba1) 0x48 = 2)
    (g10 : ¬ lba1.length < 0x54)
    (c12 : ¬ 65536 ≤ readU32 (gpt.zeroCrc lba1) 0x50)
    (g11 : ¬ lba1.length < 0x58)
    (c13 : ¬ (readU32 (gpt.zeroCrc lba1) 0x54 < 128 ∨
      65536 ≤ readU32 (gpt.zeroCrc lba1) 0x54))
    (c15 : ¬ readU64 (gpt.zeroCrc lba1) 0x28 <
      2 + readU32 (gpt.zeroCrc lba1) 0x54 * readU32 (gpt.zeroCrc lba1) 0x50 / ss)
    (g12 : ¬ lba1.length < 0x5c)
    (c16 : allZero ((gpt.zeroCrc lba1).drop (readU32 lba1 0x0c)) = true) :
    checkHeaderLib lba1 ss = .ok ⟨readU32 lba1 0x0c,
      readU64 (gpt.zeroCrc lba1) 0x28, readU64 (gpt.zeroCrc lba1) 0x30,
      readU32 (gpt.zeroCrc lba1) 0x50, readU32 (gpt.zeroCrc lba1) 0x54,
      readU32 (gpt.zeroCrc lba1) 0x58⟩ := by
  unfold checkHeaderLib
  rw [if_neg g1, if_neg (by simp [c1]), if_neg g2, if_neg (by simp [c2]),
    if_neg g3, if_neg c3, if_neg g4, if_neg g5, if_neg (by simp [c5]),
    if_neg g6, if_neg (by simp [c6]), if_neg g7, if_neg (by simp [c7]),
    if_neg g8, if_neg c8, if_neg c9, if_neg c10, if_neg g9,
    if_neg (by simp [c11]), if_neg g10, if_neg c12, if_neg g11, if_neg c13,
    if_neg c15, if_neg g12, if_neg (by simp [c16])]

theorem read_gpt_ok_intro (img : List Nat) (ss : Nat) (hd : gpt.Header)
    (res : LibOutcome)
    (h2 : ¬ img.length < ss + ss)
    (hh : checkHeaderLib ((img.drop ss).take ss) ss = .ok hd)
    (h3 : ¬ img.length < ss + ss + hd.entry_size * hd.entries)
    (h4 : hd.table_crc = crc32 ((img.drop (ss + ss)).take (hd.entry_size * hd.entries)))
    (h5 : gptEntriesLib ((img.drop (ss + ss)).take (hd.entry_size * hd.entries))
        hd.entry_size hd.first_usable_lba hd.last_usable_lba ss
        (List.range hd.entries) [] = res) :
    read_gpt img ss = res := by
  unfold read_gpt
  rw [if_neg h2]
  simp only [hh]
  rw [if_neg h3, if_neg (by simp [h4]), h5]

/-- The single 128-byte entry of `c5img`: usable LBAs [3,3], name field
bytes 0x41 0x00 0x42 0x00 followed by zeros (the UTF-16LE for "AB"). -/
def c5entry : List Nat := [1, 0, 0, 0, 0, 0, 0, 0, 0, 0, 0, 0, 0, 0, 0, 0, 0, 0, 0, 0, 0, 0, 0, 0, 0, 0, 0, 0, 0, 0, 0, 0, 3, 0, 0, 0, 0, 0, 0, 0, 3, 0, 0, 0, 0, 0, 0, 0, 0, 0, 0, 0, 0, 0, 0, 0, 65, 0, 66, 0, 0, 0, 0, 0, 0, 0, 0, 0, 0, 0, 0, 0, 0, 0, 0, 0, 0, 0, 0, 0, 0, 0, 0, 0, 0, 0, 0, 0, 0, 0, 0, 0, 0, 0, 0, 0, 0, 0, 0, 0, 0, 0, 0, 0, 0, 0, 0, 0, 0, 0, 0, 0, 0, 0, 0, 0, 0, 0, 0, 0, 0, 0, 0, 0, 0, 0, 0, 0]

/-- A valid GPT image (sector size 92) whose single entry has the name
field "AB" in UTF-16LE. -/
def c5img : List Nat :=
  List.replicate 92 0 ++ [69, 70, 73, 32, 80, 65, 82, 84, 0, 0, 1, 0, 92, 0, 0, 0, 154, 223, 16, 0, 0, 0, 0, 0, 1, 0, 0, 0, 0, 0, 0, 0, 0, 0, 0, 0, 0, 0, 0, 0, 3, 0, 0, 0, 0, 0, 0, 0, 10, 0, 0, 0, 0, 0, 0, 0, 0, 0, 0, 0, 0, 0, 0, 0, 0, 0, 0, 0, 0, 0, 0, 0, 2, 0, 0, 0, 0, 0, 0, 0, 1, 0, 0, 0, 128, 0, 0, 0, 101, 76, 106, 172] ++ c5entry

/-- The zeroed 92-byte header of `c5img`. -/
def c5hdrZ : List Nat := [69, 70, 73, 32, 80, 65, 82, 84, 0, 0, 1, 0, 92, 0, 0, 0, 0, 0, 0, 0, 0, 0, 0, 0, 1, 0, 0, 0, 0, 0, 0, 0, 0, 0, 0, 0, 0, 0, 0, 0, 3, 0, 0, 0, 0, 0, 0, 0, 10, 0, 0, 0, 0, 0, 0, 0, 0, 0, 0, 0, 0, 0, 0, 0, 0, 0, 0, 0, 0, 0, 0, 0, 2, 0, 0, 0, 0, 0, 0, 0, 1, 0, 0, 0, 128, 0, 0, 0, 101, 76, 106, 172]

theorem crc32_c5hdrZ_val : crc32 c5hdrZ = 1105818 := by
  apply gpt.crc32_chunks4 _ [69, 70, 73, 32, 80, 65, 82, 84, 0, 0, 1, 0, 92, 0, 0, 0, 0, 0, 0, 0, 0, 0, 0]
    [0, 1, 0, 0, 0, 0, 0, 0, 0, 0, 0, 0, 0, 0, 0, 0, 0, 3, 0, 0, 0, 0, 0]
    [0, 0, 10, 0, 0, 0, 0, 0, 0, 0, 0, 0, 0, 0, 0, 0, 0, 0, 0, 0, 0, 0, 0]
    [0, 0, 0, 2, 0, 0, 0, 0, 0, 0, 0, 1, 0, 0, 0, 128, 0, 0, 0, 101, 76, 106, 172]
    3654551793 1735990224 3144925877 4293861477
  · decide
  · decide
  · decide
  · decide
  · decide

theorem crc32_c5entry_val : crc32 c5entry = 2892647525 := by
  apply gpt.crc32_chunks4 _ [1, 0, 0, 0, 0, 0, 0, 0, 0, 0, 0, 0, 0, 0, 0, 0, 0, 0, 0, 0, 0, 0, 0, 0, 0, 0, 0, 0, 0, 0, 0, 0]
    [3, 0, 0, 0, 0, 0, 0, 0, 3, 0, 0, 0, 0, 0, 0, 0, 0, 0, 0, 0, 0, 0, 0, 0, 65, 0, 66, 0, 0, 0, 0, 0]
    [0, 0, 0, 0, 0, 0, 0, 0, 0, 0, 0, 0, 0, 0, 0, 0, 0, 0, 0, 0, 0, 0, 0, 0, 0, 0, 0, 0, 0, 0, 0, 0]
    [0, 0, 0, 0, 0, 0, 0, 0, 0, 0, 0, 0, 0, 0, 0, 0, 0, 0, 0, 0, 0, 0, 0, 0, 0, 0, 0, 0, 0, 0, 0, 0]
    389001208 870414815 1201600731 1402319770
  · decide
  · decide
  · decide
  · decide
  · decide

theorem c5img_checkHeader :
    checkHeaderLib ((c5img.drop 92).take 92) 92 =
      .ok ⟨92, 3, 10, 1, 128, 2892647525⟩ := by
  have h0c : readU32 ((c5img.drop 92).take 92) 0x0c = 92 := by decide
  have hz : (gpt.zeroCrc ((c5img.drop 92).take 92)).take 92 = c5hdrZ := by decide
  have hca := checkHeaderLib_ok_intro ((c5img.drop 92).take 92) 92
    (by decide) (by decide) (by decide) (by decide) (by decide) (by decide)
    (by decide) (by decide)
    (by rw [h0c, hz, crc32_c5hdrZ_val]; decide)
    (by decide) (by decide) (by decide) (by decide) (by decide) (by decide)
    (by decide) (by decide) (by decide) (by decide) (by decide) (by decide)
    (by decide) (by decide) (by decide) (by decide) (by decide)
  rw [hca]
  decide

/-- The 72-byte name field of `c5img`'s entry. -/
def c5name : List Nat := [0x41, 0, 0x42, 0] ++ List.replicate 68 0

/-- The name decode as claim C5 states it (and as src/gpt.rs lines 190-193
implement it): little-endian u16 code units at even byte offsets of the
72-byte field, at most 36 units, truncated at the first zero unit. -/
def claimNameUnits (name_data : List Nat) : List Nat :=
  ((List.range 36).map (fun idx => readU16 name_data (2 * idx))).takeWhile
    (fun val => val != 0)

/-- Claim C5: src/lib.rs lines 243-246 read 32 overlapping u16 code units
at byte offsets 0..32 instead of 36 units at even offsets, so the decoder
emits the name code points [0x41, 0x4200, 0x42] ("A䈀B") for a name field
holding UTF-16LE "AB"; the claimed decode yields [0x41, 0x42] ("AB").
(src/gpt.rs lines 190-193, the no_std version of the same loop, reads the
units as the claim states.) -/
theorem read_gpt_name_overlapping :
    read_gpt c5img 92 = .ok [⟨0, 276,
      .GPT (1 :: List.replicate 15 0) (List.replicate 16 0)
        (List.replicate 8 0) [0x41, 0x4200, 0x42], 92⟩] ∧
    from_utf16 (claimNameUnits c5name) = some [0x41, 0x42] ∧
    ([0x41, 0x4200, 0x42] : List Nat) ≠ [0x41, 0x42] := by
  refine ⟨?_, by decide, by decide⟩
  apply read_gpt_ok_intro c5img 92 ⟨92, 3, 10, 1, 128, 2892647525⟩ _
    (by decide) c5img_checkHeader (by decide) ?_ (by decide)
  have ht : ((c5img.drop (92 + 92)).take (128 * 1)) = c5entry := by decide
  rw [ht, crc32_c5entry_val]

end bootsector

namespace rangereader

/-- `SeekFrom` (src/read.rs lines 6-11): `Start` takes a u64, `End` and
`Current` take an i64. -/
inductive SeekFrom where
  | Start (n : Nat)
  | End (d : Int)
  | Current (d : Int)
deriving DecidableEq, Repr

/-- An `io::Cursor`-like byte source: the backing bytes and the cursor
position.  This instantiates the `Read`/`Seek` reader abstraction of
src/read.rs the way the repository's own tests do (`io::Cursor`). -/
structure Cursor where
  data : List Nat
  pos : Nat
deriving DecidableEq, Repr

/-- Cursor seek, `io::Cursor` semantics: seeking to any non-negative
absolute position succeeds (also past the end); a negative final position
is an error.  Returns the new position. -/
def Cursor.seek (c : Cursor) : SeekFrom → Except Unit (Cursor × Nat)
  | .Start n => .ok ({ c with pos := n }, n)
  | .Current d =>
    if (c.pos : Int) + d < 0 then .error ()
    else .ok ({ c with pos := ((c.pos : Int) + d).toNat }, ((c.pos : Int) + d).toNat)
  | .End d =>
    if (c.data.length : Int) + d < 0 then .error ()
    else .ok ({ c with pos := ((c.data.length : Int) + d).toNat },
      ((c.data.length : Int) + d).toNat)

/-- Cursor read of at most `n` bytes: copies `min n (remaining)` bytes and
advances. -/
def Cursor.read (c : Cursor) (n : Nat) : List Nat × Cursor :=
  ((c.data.drop c.pos).take (min n (c.data.length - c.pos)),
    { c with pos := c.pos + min n (c.data.length - c.pos) })

/-- `RangeError` (src/rangereader.rs lines 10-26); `inner` wraps an error
of the underlying reader. -/
inductive RangeError where
  | lenImplausiblePastEnd
  | startAfterEndOfFile
  | illegalCursorPosition (first_byte pos end_ : Nat)
  | cantSeekPastEnd
  | cantSeekBeforeStart
  | inner
deriving DecidableEq, Repr

/-- `RangeReader` (src/rangereader.rs lines 43-47); the source's `end`
field is a Lean keyword, hence `end_`. -/
structure RangeReader where
  inner : Cursor
  first_byte : Nat
  end_ : Nat
deriving DecidableEq, Repr

/-- Embedding of `RangeReader::new` (src/rangereader.rs lines 50-71):
`end = first_byte + len` failing on u64 overflow (`checked_add`), then seek
the source to `first_byte` and require the achieved position to equal it. -/
def RangeReader.new (inner : Cursor) (first_byte len : Nat) :
    Except RangeError RangeReader :=
  if 2 ^ 64 ≤ first_byte + len then .error .lenImplausiblePastEnd
  else
    match inner.seek (.Start first_byte) with
    | .error _ => .error .inner
    | .ok (inner2, seeked) =>
      if seeked ≠ first_byte then .error .startAfterEndOfFile
      else .ok ⟨inner2, first_byte, first_byte + len⟩

/-- Embedding of `RangeReader::read` (src/rangereader.rs lines 99-114):
find the current absolute position (`seek(Current(0))`), require it to lie
in `[first_byte, end]`, clamp the requested length to `end -
current_position` (the `usize::try_from(..).unwrap_or(usize::MAX)` is the
identity on a 64-bit host) and read that many bytes from the source. -/
def RangeReader.read (r : RangeReader) (n : Nat) :
    Except RangeError (List Nat × RangeReader) :=
  match r.inner.seek (.Current 0) with
  | .error _ => .error .inner
  | .ok (inner1, current_real) =>
    if current_real < r.first_byte ∨ r.end_ < current_real then
      .error (.illegalCursorPosition r.first_byte current_real r.end_)
    else
      .ok ((inner1.read (min (r.end_ - current_real) n)).1,
        { r with inner := (inner1.read (min (r.end_ - current_real) n)).2 })

/-- Claim C7: every successful `RangeReader::read` returns at most
`min n (end - current_position)` bytes (the request is clamped to the
range, never extended); and the reader over `[0..7]` with
`first_byte = 2, len = 5` yields `[2,3]`, `[4,5]`, then the clamped `[6]`,
then 0 bytes at the end of the range. -/
theorem rangereader_read_clamps :
    (∀ (r : RangeReader) (n : Nat) (bytes : List Nat) (r2 : RangeReader),
      RangeReader.read r n = .ok (bytes, r2) →
      bytes.length ≤ min n (r.end_ - r.inner.pos)) ∧
    (∃ r0 r1 r2 r3 r4,
      RangeReader.new ⟨[0, 1, 2, 3, 4, 5, 6, 7], 0⟩ 2 5 = .ok r0 ∧
      RangeReader.read r0 2 = .ok ([2, 3], r1) ∧
      RangeReader.read r1 2 = .ok ([4, 5], r2) ∧
      RangeReader.read r2 2 = .ok ([6], r3) ∧
      RangeReader.read r3 2 = .ok ([], r4)) := by
  constructor
  · intro r n bytes r2 h
    unfold RangeReader.read at h
    simp only [Cursor.seek] at h
    rw [if_neg (by omega)] at h
    simp only [Int.add_zero, Int.toNat_ofNat] at h
    by_cases hpos : r.inner.pos < r.first_byte ∨ r.end_ < r.inner.pos
    · rw [if_pos hpos] at h
      exact Except.noConfusion h
    · rw [if_neg hpos] at h
      have hb := (Prod.mk.injEq _ _ _ _).mp (Except.ok.inj h)
      rw [← hb.1]
      simp only [Cursor.read, List.length_take, List.length_drop]
      omega
  · refine ⟨⟨⟨[0, 1, 2, 3, 4, 5, 6, 7], 2⟩, 2, 7⟩,
      ⟨⟨[0, 1, 2, 3, 4, 5, 6, 7], 4⟩, 2, 7⟩,
      ⟨⟨[0, 1, 2, 3, 4, 5, 6, 7], 6⟩, 2, 7⟩,
      ⟨⟨[0, 1, 2, 3, 4, 5, 6, 7], 7⟩, 2, 7⟩,
      ⟨⟨[0, 1, 2, 3, 4, 5, 6, 7], 7⟩, 2, 7⟩,
      by rfl, by rfl, by rfl, by rfl, by rfl⟩

end rangereader
